import Mathlib

/-!
Verification development for the icisk-orchestrator-agent tool-interrupt /
human-in-the-loop control protocol.

This file shallowly embeds the core of the repository:

* `nodes/base/base_agent_tool.py` (`BaseAgentTool`: `check_required_args`,
  `check_validation_rules`, `infer_args`, `confirm_args`, `confirm_ouputs`,
  `_run`),
* `nodes/base/base_tool_interrupt.py` (`BaseToolInterrupt`),
* `nodes/base/base_tool_handler_node.py` (`BaseToolHandlerNode`),
* `nodes/base/base_tool_interrupt_handler_node.py` (the four interrupt
  handler strategies and `BaseToolInterruptNode`),
* `nodes/tools/cds_historic_notebook_tool.py` (`CDSHistoricNotebookTool`),
* `nodes/tools/code_editor_tool.py` (`CodeEditorTool`),
* `nodes/tools/cds_forecast_notebook_tool.py` (`CDSForecastNotebookTool`),
* `nodes/tools/spi_forecast_notebook_tool.py` (`SPIForecastNotebookTool`),
* `common/utils.py` (`try_default`, `floor_decimals`, `ceil_decimals`,
  the `eval_output` fallback of `ask_llm`).

Modelling conventions:

* Python runtime values flowing through tool arguments are modelled by the
  inductive type `Value`.  Python numbers are idealised as exact decimal
  fixed-point values (`PyNum`, a mantissa with a power-of-ten scale — every
  numeric literal handled by the embedded code is decimal); claims about
  binary floating-point rounding are out of scope.
* Python exceptions are modelled with `Except PyErr`; an uncaught exception
  is an `.error` result.  `BaseToolInterrupt` is a separate, deliberately
  raised control-flow signal and is modelled by the `RunResult.interrupt`
  constructor of the run outcome, mirroring the fact that the tool handler
  node catches exactly that exception class and no other.
* External collaborators (the language model client, the notebook store
  `DBI`, the wall clock `datetime.now()`) are oracles, gathered in
  `Oracles`; durable external writes (`DBI.save_notebook`) are recorded in
  an effect trace on the tool state so that frame/side-effect claims can be
  stated.  `datetime.now()` is modelled at date granularity with its
  time-of-day taken strictly after midnight (true except on a measure-zero
  boundary instant).
* Message text produced by f-string interpolation is reproduced in shape;
  interpolated reprs of values are rendered by a simplified `pyStrOfValue`
  (no claim depends on interpolated message text).
-/

namespace ICisk

/-! ## Python value model -/

/-- `CDSHistoricNotebookTool.InputHistoricCDSDataset` members
(`cds_historic_notebook_tool.py`, lines 25-31). -/
inductive HistDataset where
  | monthlyMeans   -- member name reanalysis_era5_land_monthly_means
  | hourly         -- member name reanalysis_era5_land
deriving DecidableEq, Repr

/-- `CDSHistoricNotebookTool.InputHistoricVariable` members
(`cds_historic_notebook_tool.py`, lines 51-54). -/
inductive HistVariable where
  | totalPrecipitation
  | temperature
deriving DecidableEq, Repr

/-- `CDSForecastNotebookTool.InputForecastVariable` members
(`cds_forecast_notebook_tool.py`, lines 29-33). -/
inductive ForecastVariable where
  | totalPrecipitation
  | temperature
  | glofas
deriving DecidableEq, Repr

/-- A Python number (int/float) idealised as the exact decimal
`mant / 10 ^ exp10`.  Two structurally different representations can
denote the same real (`⟨120, 1⟩` and `⟨12, 0⟩`); the embedded operations
below are exact on the denoted reals, and no embedded claim depends on
representation normalisation. -/
structure PyNum where
  mant : ℤ
  exp10 : ℕ
deriving DecidableEq, Repr

/-- The denoted rational (used in specification statements only). -/
def PyNum.toQ (a : PyNum) : ℚ :=
  (a.mant : ℚ) / (10 : ℚ) ^ a.exp10

/-- Exact comparison `a < b` by cross-multiplication. -/
def PyNum.ltb (a b : PyNum) : Bool :=
  a.mant * (10 : ℤ) ^ b.exp10 < b.mant * (10 : ℤ) ^ a.exp10

/-- A Python runtime value as it appears in tool argument dictionaries.
`str`-enum members (the dataset/variable enums are `class X(str, Enum)`)
are distinguished constructors; for string operations they behave as their
`.value` string. -/
inductive Value where
  | pyNone
  | str (s : String)
  | num (n : PyNum)
  | bool (b : Bool)
  | list (vs : List Value)
  | tuple (vs : List Value)
  | dict (kvs : List (String × Value))
  | histDataset (d : HistDataset)
  | histVar (v : HistVariable)
  | fcVar (v : ForecastVariable)

/-- Python exception classes relevant to the embedded code.
`BaseToolInterrupt` is *not* a `PyErr`: the tool handler catches exactly
that class, so it is modelled as a distinct outcome constructor. -/
inductive PyErr where
  | typeError (msg : String)
  | valueError (msg : String)
  | keyError (k : String)
  | indexError
  | attributeError (msg : String)
deriving DecidableEq, Repr

/-- Substring search worker (the standard-library string functions are
compiled with well-founded recursion and do not reduce in the kernel, so
the embedding uses its own char-list implementations throughout). -/
def containsSub (needle : List Char) : List Char → Bool
  | [] => needle.isEmpty
  | c :: t => needle.isPrefixOf (c :: t) || containsSub needle t

/-- Python substring membership `needle in hay` for strings. -/
def pyContains (needle hay : String) : Bool :=
  containsSub needle.data hay.data

/-- Python `s.endswith(suffix)`. -/
def pyEndsWith (s suf : String) : Bool :=
  suf.data.isSuffixOf s.data

/-- `s.replace("-", "_")` (single-character pattern, hence a char map). -/
def replaceDashUnderscore (s : String) : String :=
  ⟨s.data.map (fun c => if c = '-' then '_' else c)⟩

/-- ASCII `str.lower()` (the repository only compares ASCII file
extensions). -/
def asciiLower (c : Char) : Char :=
  if 'A' ≤ c ∧ c ≤ 'Z' then Char.ofNat (c.toNat + 32) else c

def pyLower (s : String) : String :=
  ⟨s.data.map asciiLower⟩

/-- `sep.join(xs)`. -/
def joinWithSep (sep : String) : List String → String
  | [] => ""
  | [x] => x
  | x :: y :: xs => x ++ sep ++ joinWithSep sep (y :: xs)

/-- Lexicographic (code-point) comparison of char lists. -/
def strLtGo : List Char → List Char → Bool
  | [], [] => false
  | [], _ :: _ => true
  | _ :: _, [] => false
  | c :: cs, d :: ds => if c = d then strLtGo cs ds else decide (c < d)

/-- Python lexicographic (code-point) comparison of strings, `a < b`. -/
def pyStrLt (a b : String) : Bool :=
  strLtGo a.data b.data

/-- The `.value` string of an `InputHistoricCDSDataset` member (a `str`
subclass, so string operations see this text). -/
def HistDataset.valueStr : HistDataset → String
  | .monthlyMeans => "reanalysis-era5-land-monthly-means"
  | .hourly => "reanalysis-era5-land"

/-- The `.value` string of an `InputHistoricVariable` member. -/
def HistVariable.valueStr : HistVariable → String
  | .totalPrecipitation => "total_precipitation"
  | .temperature => "temperature"

/-- The `.value` string of an `InputForecastVariable` member. -/
def ForecastVariable.valueStr : ForecastVariable → String
  | .totalPrecipitation => "total_precipitation"
  | .temperature => "temperature"
  | .glofas => "glofas"

/-- Simplified `str()` rendering used for f-string interpolations in
message/effect text (no claim depends on the exact rendering). -/
def pyStrOfValue : Value → String
  | .pyNone => "None"
  | .str s => s
  | .num _ => "<number>"
  | .bool b => if b then "True" else "False"
  | .list _ => "[...]"
  | .tuple _ => "(...)"
  | .dict _ => "dict"
  | .histDataset d => d.valueStr
  | .histVar v => v.valueStr
  | .fcVar v => v.valueStr

/-! ## Argument dictionaries

Tool arguments are an insertion-ordered string-keyed dictionary, built by
each tool `_run` with exactly the schema keys. -/

abbrev Args := List (String × Value)

/-- `tool_args[arg]` for a key known to be present (every `_run` builds the
dict with all schema keys; the `.pyNone` default is never exercised under
the keys hypotheses used in the theorems below). -/
def getArg (args : Args) (k : String) : Value :=
  ((args.find? (fun p => p.1 = k)).map Prod.snd).getD .pyNone

/-- `tool_args[arg] = v`: in-place update of an insertion-ordered dict
(replaces in position if present, appends otherwise). -/
def setArg : Args → String → Value → Args
  | [], k, v => [(k, v)]
  | (k', v') :: rest, k, v =>
      if k' = k then (k, v) :: rest else (k', v') :: setArg rest k v

/-- The key list of an argument dictionary. -/
def argKeys (args : Args) : List String := args.map Prod.fst

/-! ## Dates and the wall clock

`datetime.strptime` with formats `%Y-%m-%d` and `%Y-%m` is modelled by
explicit parsers; `datetime.now()` is an oracle at date granularity. -/

structure Date where
  year : ℕ
  month : ℕ
  day : ℕ
deriving DecidableEq, Repr

def Date.lt (a b : Date) : Bool :=
  a.year < b.year ||
  (a.year = b.year && (a.month < b.month ||
    (a.month = b.month && a.day < b.day)))

def Date.le (a b : Date) : Bool :=
  a.lt b || a = b

/-- Gregorian leap-year rule (as `datetime` enforces for day ranges). -/
def isLeap (y : ℕ) : Bool :=
  y % 4 = 0 && (y % 100 ≠ 0 || y % 400 = 0)

def daysInMonth (y m : ℕ) : ℕ :=
  if m = 2 then (if isLeap y then 29 else 28)
  else if m = 4 ∨ m = 6 ∨ m = 9 ∨ m = 11 then 30
  else 31

/-- Split a char list on a separator character. -/
def splitOnCharGo (sep : Char) : List Char → List Char → List (List Char)
  | [], acc => [acc.reverse]
  | c :: cs, acc =>
      if c = sep then acc.reverse :: splitOnCharGo sep cs []
      else splitOnCharGo sep cs (c :: acc)

def charDigit? (c : Char) : Option ℕ :=
  if c = '0' then some 0 else if c = '1' then some 1
  else if c = '2' then some 2 else if c = '3' then some 3
  else if c = '4' then some 4 else if c = '5' then some 5
  else if c = '6' then some 6 else if c = '7' then some 7
  else if c = '8' then some 8 else if c = '9' then some 9
  else Option.none

def parseNatCsGo : List Char → ℕ → Option ℕ
  | [], acc => some acc
  | c :: cs, acc =>
      match charDigit? c with
      | some d => parseNatCsGo cs (acc * 10 + d)
      | Option.none => Option.none

/-- All-digit parse of a non-empty char list. -/
def parseNatCs? (cs : List Char) : Option ℕ :=
  if cs.isEmpty then Option.none else parseNatCsGo cs 0

/-- `datetime.strptime(s, "%Y-%m-%d")`: `none` models a raised
`ValueError`.  `%Y`/`%m`/`%d` accept 1-4 / 1-2 / 1-2 digits and the
month/day ranges are checked. -/
def parseDateYMD (s : String) : Option Date :=
  match splitOnCharGo '-' s.data [] with
  | [ys, ms, ds] =>
      match parseNatCs? ys, parseNatCs? ms, parseNatCs? ds with
      | some y, some m, some d =>
          if 1 ≤ ys.length ∧ ys.length ≤ 4 ∧ ms.length ≤ 2 ∧ ds.length ≤ 2 ∧
             1 ≤ m ∧ m ≤ 12 ∧ 1 ≤ d ∧ d ≤ daysInMonth y m then
            some ⟨y, m, d⟩
          else Option.none
      | _, _, _ => Option.none
  | _ => Option.none

/-- `datetime.strptime(s, "%Y-%m")`: note that a full `YYYY-MM-DD` string
raises (unconverted trailing data), hence the exact two-component shape. -/
def parseDateYM (s : String) : Option Date :=
  match splitOnCharGo '-' s.data [] with
  | [ys, ms] =>
      match parseNatCs? ys, parseNatCs? ms with
      | some y, some m =>
          if 1 ≤ ys.length ∧ ys.length ≤ 4 ∧ ms.length ≤ 2 ∧
             1 ≤ m ∧ m ≤ 12 then
            some ⟨y, m, 1⟩
          else Option.none
      | _, _ => Option.none
  | _ => Option.none

def pad2 (n : ℕ) : String :=
  if n < 10 then "0" ++ toString n else toString n

def pad4 (n : ℕ) : String :=
  if n < 10 then "000" ++ toString n
  else if n < 100 then "00" ++ toString n
  else if n < 1000 then "0" ++ toString n
  else toString n

/-- `d.strftime("%Y-%m-%d")`. -/
def strftimeYMD (d : Date) : String :=
  pad4 d.year ++ "-" ++ pad2 d.month ++ "-" ++ pad2 d.day

/-- `d.strftime("%Y-%m-01")`. -/
def strftimeYM01 (d : Date) : String :=
  pad4 d.year ++ "-" ++ pad2 d.month ++ "-01"

/-- The wall clock: `today` is `datetime.now()` at date granularity (its
time-of-day is taken strictly after midnight), `iso` is the
`isoformat(timespec="seconds")` text with `:` replaced by `-` used in
generated output names. -/
structure Clock where
  today : Date
  iso : String
deriving DecidableEq, Repr

/-- `datetime.now().replace(day=1)` at date granularity. -/
def Clock.monthStart (c : Clock) : Date :=
  { c.today with day := 1 }

/-! ## `common/utils.py` numeric helpers -/

/-- `utils.floor_decimals(number, decimals)`:
`math.floor(number * factor) / factor` with `factor = 10 ** decimals`,
exactly on the decimal model: the result is the floored mantissa at scale
`decimals` (`Int.fdiv` is floor division, as `math.floor` rounds toward
minus infinity). -/
def floorDecimalsNum (a : PyNum) (decimals : ℕ) : PyNum :=
  if a.exp10 ≤ decimals then ⟨a.mant * (10 : ℤ) ^ (decimals - a.exp10), decimals⟩
  else ⟨Int.fdiv a.mant ((10 : ℤ) ^ (a.exp10 - decimals)), decimals⟩

/-- `utils.ceil_decimals(number, decimals)`, exactly on the decimal
model. -/
def ceilDecimalsNum (a : PyNum) (decimals : ℕ) : PyNum :=
  if a.exp10 ≤ decimals then ⟨a.mant * (10 : ℤ) ^ (decimals - a.exp10), decimals⟩
  else ⟨-(Int.fdiv (-a.mant) ((10 : ℤ) ^ (a.exp10 - decimals))), decimals⟩

/-- `utils.floor_decimals` applied to a runtime value: numbers (and
booleans, which are ints in Python) succeed, anything else raises
`TypeError`. -/
def floorDecimalsValue (v : Value) (decimals : ℕ) : Except PyErr Value :=
  match v with
  | .num a => .ok (.num (floorDecimalsNum a decimals))
  | .bool b => .ok (.num (floorDecimalsNum ⟨if b then 1 else 0, 0⟩ decimals))
  | _ => .error (.typeError "unsupported operand for floor_decimals")

/-- `utils.ceil_decimals` applied to a runtime value. -/
def ceilDecimalsValue (v : Value) (decimals : ℕ) : Except PyErr Value :=
  match v with
  | .num a => .ok (.num (ceilDecimalsNum a decimals))
  | .bool b => .ok (.num (ceilDecimalsNum ⟨if b then 1 else 0, 0⟩ decimals))
  | _ => .error (.typeError "unsupported operand for ceil_decimals")

/-- Python list indexing `vs[i]` (raises `IndexError` out of range). -/
def pyIndex (vs : List Value) (i : ℕ) : Except PyErr Value :=
  match vs.get? i with
  | some v => .ok v
  | none => .error .indexError

/-! ## `common/utils.py` — `ask_llm` with `eval_output=True`

`ask_llm` (lines 111-125) calls the model, then tries
`ast.literal_eval` on the content; on *any* failure the `except: pass`
falls through and the **raw content string** is returned.  `parsed` is the
outcome of the `literal_eval` attempt. -/
def askLlmEvalResult (content : String) (parsed : Option Value) : Value :=
  match parsed with
  | some v => v
  | Option.none => .str content

/-! ## `nodes/base/base_tool_interrupt.py` — Interrupt signal -/

/-- `BaseToolInterrupt.BaseToolInterruptType` (lines 11-15). -/
inductive InterruptType where
  | provideArgs
  | invalidArgs
  | confirmArgs
  | confirmOutput
deriving DecidableEq, Repr

/-- Tool output dictionaries (what `_execute` returns and what is stored
in `self.output`). -/
abbrev Output := List (String × Value)

/-- Kind-specific `interrupt_data` payload.  The constant `args_schema`
metadata that the source also places in the payload carries no dynamic
information and is omitted. -/
inductive InterruptData where
  | provide (missingArgs : List String)
  | invalid (invalidArgs : List (String × String))
  | confirm (args : Args)
  | output (args : Args) (out : Option Output)

/-- `BaseToolInterrupt` as a value: `tool`, `type`, `reason`, `data`
(lines 18-36). -/
structure ToolInterrupt where
  tool : String
  itype : InterruptType
  reason : String
  data : InterruptData

/-! ## `nodes/base/base_agent_tool.py` — `BaseAgentTool` -/

/-- Durable external writes performed by a tool body (the `DBI.save_notebook`
calls of the concrete `_execute` implementations), recorded as a trace so
that side-effect claims are statable. -/
inductive Effect where
  | saveNotebook (name : String)
deriving DecidableEq, Repr

/-- The mutable per-tool-instance state of `BaseAgentTool`:
`execution_confirmed`, `output_confirmed`, `output` (lines 25-27), plus
the trace of durable external writes. -/
structure ToolState where
  executionConfirmed : Bool
  outputConfirmed : Bool
  output : Option Output
  effects : List Effect

/-- A validation rule: one entry of the per-argument lists returned by
`_set_args_validation_rules`; called with the entire argument set, returns
an invalid-reason or `None`; may itself raise. -/
abbrev ValidationRule := Args → Except PyErr (Option String)

/-- An inference rule: the per-argument function returned by
`_set_args_inference_rules`; computes the replacement value from the whole
current argument set and may mutate the tool state
(`infer_area` sets `self.execution_confirmed = False`), and may raise.
The tool state is returned even on a raise (mutations made before the
exception persist). -/
abbrev InferenceRule := Args → ToolState → (Except PyErr Value) × ToolState

/-- A tool as configured by a `BaseAgentTool` subclass: its name, its
`args_schema` (key and `is_required()` flag in declaration order), its
validation and inference rule tables, its `_execute` body, and the
declared initial values its `__init__` gives the two confirmation flags. -/
structure ToolConfig where
  name : String
  schema : List (String × Bool)
  validationRules : String → List ValidationRule
  inferenceRules : String → Option InferenceRule
  execute : Args → ToolState → (Except PyErr Output) × ToolState
  initialExecutionConfirmed : Bool
  initialOutputConfirmed : Bool
  schemaDefault : String → Value := fun _ => Value.pyNone

/-- The tool state right after `__init__`. -/
def ToolConfig.initState (t : ToolConfig) : ToolState :=
  { executionConfirmed := t.initialExecutionConfirmed
    outputConfirmed := t.initialOutputConfirmed
    output := Option.none
    effects := [] }

/-- Python `v is None`. -/
def Value.isPyNone : Value → Bool
  | .pyNone => true
  | _ => false

/-- `BaseAgentTool.check_required_args` (lines 37-38): the list of schema
keys that are required and currently `None`, in schema order. -/
def checkRequiredArgs (t : ToolConfig) (args : Args) : List String :=
  (t.schema.filter (fun p => p.2 && (getArg args p.1).isPyNone)).map Prod.fst

/-- The inner rule loop of `check_validation_rules` (lines 62-67) for one
argument: every rule is evaluated (the trailing `continue` is a no-op), a
raise propagates, and each non-`None` return overwrites
`invalid_args[arg]`, so the accumulator ends as the *last* non-`None`
reason. -/
def runRulesLast : List ValidationRule → Args → Option String →
    Except PyErr (Option String)
  | [], _, acc => .ok acc
  | r :: rs, args, acc =>
      match r args with
      | .error e => .error e
      | .ok Option.none => runRulesLast rs args acc
      | .ok (some reason) => runRulesLast rs args (some reason)

/-- Outer loop of `BaseAgentTool.check_validation_rules` (lines 56-67):
collects `invalid_args` over schema keys in order. -/
def checkValidationRulesGo (vr : String → List ValidationRule) :
    List (String × Bool) → Args → List (String × String) →
    Except PyErr (List (String × String))
  | [], _, acc => .ok acc
  | (k, _) :: rest, args, acc =>
      match runRulesLast (vr k) args Option.none with
      | .error e => .error e
      | .ok Option.none => checkValidationRulesGo vr rest args acc
      | .ok (some reason) => checkValidationRulesGo vr rest args (acc ++ [(k, reason)])

/-- `BaseAgentTool.check_validation_rules` without the raise at the end
(the raise is performed by `runTool` when the result is non-empty). -/
def checkValidationRules (t : ToolConfig) (args : Args) :
    Except PyErr (List (String × String)) :=
  checkValidationRulesGo t.validationRules t.schema args []

/-- `BaseAgentTool.infer_args` (lines 85-90): walk the schema keys in
declaration order; where an inference rule is registered, replace
`tool_args[arg]` with its result computed over the *current* (partially
inferred) argument set. -/
def inferArgsGo (ir : String → Option InferenceRule) :
    List (String × Bool) → Args → ToolState → (Except PyErr Args) × ToolState
  | [], args, st => (.ok args, st)
  | (k, _) :: rest, args, st =>
      match ir k with
      | Option.none => inferArgsGo ir rest args st
      | some rule =>
          match rule args st with
          | (.error e, st') => (.error e, st')
          | (.ok v, st') => inferArgsGo ir rest (setArg args k v) st'

def inferArgs (t : ToolConfig) (args : Args) (st : ToolState) :
    (Except PyErr Args) × ToolState :=
  inferArgsGo t.inferenceRules t.schema args st

/-- Outcome of `BaseAgentTool._run`: normal return, a raised
`BaseToolInterrupt`, or an uncaught ordinary exception. -/
inductive RunResult where
  | ok (out : Output)
  | interrupt (i : ToolInterrupt)
  | error (e : PyErr)

/-- Rendering of a list of names inside the f-string interrupt reasons
(quote marks of the Python repr are not reproduced). -/
def reprNameList (xs : List String) : String :=
  "[" ++ joinWithSep ", " xs ++ "]"

/-- `BaseAgentTool._run` (lines 125-147): the fixed phase order
`check_required_args` → `check_validation_rules` → `infer_args` →
`confirm_args` → `_execute` → `confirm_ouputs`, with the flag updates and
interrupt payloads of lines 37-117. -/
def runTool (t : ToolConfig) (args : Args) (st : ToolState) :
    RunResult × ToolState :=
  let missing := checkRequiredArgs t args
  if missing ≠ [] then
    (.interrupt
      { tool := t.name
        itype := .provideArgs
        reason := "Missing required arguments: " ++ reprNameList missing ++ "."
        data := .provide missing },
     { st with executionConfirmed := false })
  else
    match checkValidationRules t args with
    | .error e => (.error e, st)
    | .ok invalid =>
      if invalid ≠ [] then
        (.interrupt
          { tool := t.name
            itype := .invalidArgs
            reason := "Invalid arguments: " ++
              reprNameList (invalid.map Prod.fst) ++ "."
            data := .invalid invalid },
         { st with executionConfirmed := false })
      else
        match inferArgs t args st with
        | (.error e, st') => (.error e, st')
        | (.ok args', st') =>
          if !st'.executionConfirmed then
            (.interrupt
              { tool := t.name
                itype := .confirmArgs
                reason := "Please confirm the execution of the tool with the provided arguments."
                data := .confirm args' },
             st')
          else
            match t.execute args' st' with
            | (.error e, st'') => (.error e, st'')
            | (.ok out, st'') =>
              let st3 := { st'' with output := some out }
              if !st3.outputConfirmed then
                (.interrupt
                  { tool := t.name
                    itype := .confirmOutput
                    reason := "A user confirmation of the ouput is required."
                    data := .output args' st3.output },
                 st3)
              else (.ok out, st3)

/-! ## External collaborators (oracles) -/

/-- External collaborators of the core, fixed per conversation:
* `clock` — `datetime.now()`;
* `geo s` — the `ask_llm(..., eval_output=True)` result for the
  bounding-box prompt built from area name `s`
  (`cds_historic_notebook_tool.py` lines 236-244 and its twins);
* `genCode v` — the `ask_llm(..., eval_output=False)` content for the
  code-generation prompt of `code_editor_tool.py` built from the
  `code_request` value `v`;
* `dbiHasNotebook v` — whether `DBI.notebook_by_name(author, v)` finds a
  notebook (the author is fixed by the conversation).
The notebook store is modelled as available; a collaborator outage is a
failed turn and out of scope of the embedded claims. -/
structure Oracles where
  clock : Clock
  geo : String → Value
  genCode : Value → String
  dbiHasNotebook : Value → Bool

/-! ## `nodes/tools/cds_historic_notebook_tool.py` — CDSHistoricNotebookTool -/

/-- The `.value`-string view that Python string operations see for a value
that is a `str` or a `str`-enum member; `Option.none` for non-strings. -/
def Value.asPyStr? : Value → Option String
  | .str s => some s
  | .histDataset d => some d.valueStr
  | .histVar v => some v.valueStr
  | .fcVar v => some v.valueStr
  | _ => Option.none

/-- Python iteration over a value (`[x for x in v]`): lists and tuples give
their elements, strings their characters, dicts their keys; anything else
raises `TypeError`. -/
def pyIter : Value → Except PyErr (List Value)
  | .list vs => .ok vs
  | .tuple vs => .ok vs
  | .str s => .ok (s.data.map (fun c => .str (String.singleton c)))
  | .dict kvs => .ok (kvs.map (fun p => .str p.1))
  | .histDataset d => .ok (d.valueStr.data.map (fun c => .str (String.singleton c)))
  | .histVar v => .ok (v.valueStr.data.map (fun c => .str (String.singleton c)))
  | .fcVar v => .ok (v.valueStr.data.map (fun c => .str (String.singleton c)))
  | _ => .error (.typeError "object is not iterable")

/-- `cls[name]` lookup for `InputHistoricCDSDataset`. -/
def histDatasetOfName? (a : String) : Option HistDataset :=
  if a = "reanalysis_era5_land_monthly_means" then some .monthlyMeans
  else if a = "reanalysis_era5_land" then some .hourly
  else Option.none

/-- `InputHistoricCDSDataset.from_str` (lines 33-49) on a string alias:
member-name lookup, hyphen-to-underscore lookup, the two qualified-name
comparisons, and the `month`/`hour` substring fallbacks, in source order. -/
def histDatasetFromStrS (a : String) : Option HistDataset :=
  match histDatasetOfName? a with
  | some d => some d
  | Option.none =>
    match histDatasetOfName? (replaceDashUnderscore a) with
    | some d => some d
    | Option.none =>
      if a = "InputHistoricCDSDataset.reanalysis_era5_land_monthly_means" then
        some .monthlyMeans
      else if pyContains "month" a then some .monthlyMeans
      else if a = "InputHistoricCDSDataset.reanalysis_era5_land" then some .hourly
      else if pyContains "hour" a then some .hourly
      else Option.none

/-- `InputHistoricCDSDataset.from_str` on a runtime value (a non-string
alias fails its first string operation). -/
def histDatasetFromStr (v : Value) : Except PyErr (Option HistDataset) :=
  match v.asPyStr? with
  | some a => .ok (histDatasetFromStrS a)
  | Option.none => .error (.typeError "from_str on a non-string alias")

/-- `cls[name]` lookup for `InputHistoricVariable`. -/
def histVarOfName? (a : String) : Option HistVariable :=
  if a = "total_precipitation" then some .totalPrecipitation
  else if a = "temperature" then some .temperature
  else Option.none

/-- `InputHistoricVariable.from_str` (lines 74-84): member-name lookup,
then the `prec` / `temp` substring fallbacks. -/
def histVarFromStrS (a : String) : Option HistVariable :=
  match histVarOfName? a with
  | some v => some v
  | Option.none =>
    if pyContains "prec" a then some .totalPrecipitation
    else if pyContains "temp" a then some .temperature
    else Option.none

def histVarFromStr (v : Value) : Except PyErr (Option HistVariable) :=
  match v.asPyStr? with
  | some a => .ok (histVarFromStrS a)
  | Option.none => .error (.typeError "from_str on a non-string alias")

/-- `InputHistoricVariable.as_icisk` (lines 63-68). -/
def HistVariable.asIcisk : HistVariable → String
  | .totalPrecipitation => "tp"
  | .temperature => "t2m"

/-- `InputHistoricVariable.as_cds` (lines 56-61). -/
def HistVariable.asCds : HistVariable → String
  | .totalPrecipitation => "total_precipitation"
  | .temperature => "2m_temperature"

/-- Enum construction by value, `InputHistoricCDSDataset(x)`. -/
def histDatasetByValue : Value → Except PyErr HistDataset
  | .histDataset d => .ok d
  | .str s =>
      if s = "reanalysis-era5-land-monthly-means" then .ok .monthlyMeans
      else if s = "reanalysis-era5-land" then .ok .hourly
      else .error (.valueError "is not a valid InputHistoricCDSDataset")
  | _ => .error (.valueError "is not a valid InputHistoricCDSDataset")

/-- Enum construction by value, `InputHistoricVariable(x)`. -/
def histVarByValue : Value → Except PyErr HistVariable
  | .histVar v => .ok v
  | .str s =>
      if s = "total_precipitation" then .ok .totalPrecipitation
      else if s = "temperature" then .ok .temperature
      else .error (.valueError "is not a valid InputHistoricVariable")
  | _ => .error (.valueError "is not a valid InputHistoricVariable")

/-- `[v for v in vs if from_str(v) is None]` for historic variables. -/
def collectBadHistVars : List Value → Except PyErr (List Value)
  | [] => .ok []
  | v :: vs =>
      match histVarFromStr v with
      | .error e => .error e
      | .ok Option.none => (collectBadHistVars vs).map (v :: ·)
      | .ok (some _) => collectBadHistVars vs

/-- `[from_str(v, raise_error=True) for v in vs]` for historic
variables. -/
def mapHistVarsRaise : List Value → Except PyErr (List HistVariable)
  | [] => .ok []
  | v :: vs =>
      match histVarFromStr v with
      | .error e => .error e
      | .ok Option.none =>
          .error (.valueError "is not a valid InputHistoricVariable member")
      | .ok (some w) => (mapHistVarsRaise vs).map (w :: ·)

def pyStrList (vs : List Value) : String :=
  "[" ++ joinWithSep ", " (vs.map pyStrOfValue) ++ "]"

/-- Validation rule on `historic_dataset` (lines 189-191). -/
def cdsHistDatasetRule : ValidationRule := fun args =>
  match histDatasetFromStr (getArg args "historic_dataset") with
  | .error e => .error e
  | .ok Option.none =>
      .ok (some ("Invalid historic dataset: " ++
        pyStrOfValue (getArg args "historic_dataset") ++
        ". It should be a list of valid CDS historic dataset: [[reanalysis_era5_land_monthly_means, reanalysis_era5_land]]."))
  | .ok (some _) => .ok Option.none

/-- Validation rule on `historic_variables` (lines 193-195). -/
def cdsHistVariablesRule : ValidationRule := fun args =>
  match pyIter (getArg args "historic_variables") with
  | .error e => .error e
  | .ok vs =>
      match collectBadHistVars vs with
      | .error e => .error e
      | .ok bad =>
          if bad.length > 0 then
            .ok (some ("Invalid historic variables: " ++ pyStrList bad ++
              ". It should be a list of valid CDS historic variables: [[total_precipitation, temperature]]."))
          else .ok Option.none

/-- The (textually identical) validation rule on `area` of the three
notebook tools (e.g. `cds_historic_notebook_tool.py` lines 197-200):
fires iff the value is a `list` of length other than 4; never raises. -/
def bboxAreaRule : ValidationRule := fun args =>
  match getArg args "area" with
  | .list vs =>
      if vs.length ≠ 4 then
        .ok (some ("Invalid area coordinates: " ++ pyStrOfValue (.list vs) ++
          ". It should be a list of 4 float values representing the bounding box [min_x, min_y, max_x, max_y]."))
      else .ok Option.none
  | _ => .ok Option.none

/-- `utils.try_default(lambda: datetime.strptime(v, "%Y-%m-%d"), None)`:
any raise (wrong type, wrong format) is swallowed to `None`. -/
def tryStrptimeYMD (v : Value) : Option Date :=
  match v.asPyStr? with
  | some s => parseDateYMD s
  | Option.none => Option.none

/-- Unguarded `datetime.strptime(v, "%Y-%m-%d")`. -/
def strptimeYMD (v : Value) : Except PyErr Date :=
  match v.asPyStr? with
  | some s =>
      match parseDateYMD s with
      | some d => .ok d
      | Option.none => .error (.valueError "time data does not match format")
  | Option.none => .error (.typeError "strptime argument must be str")

/-- Generic YYYY-MM-DD format rule shape, used by the `start_time`,
`end_time`, `init_time` and `lead_time` first rules of the notebook
tools: fires iff the value is non-`None` and the guarded parse fails. -/
def dateFormatRule (key label : String) : ValidationRule := fun args =>
  let v := getArg args key
  if v.isPyNone then .ok Option.none
  else
    match tryStrptimeYMD v with
    | some _ => .ok Option.none
    | Option.none =>
        .ok (some ("Invalid " ++ label ++ ": " ++ pyStrOfValue v ++
          ". It should be in the format YYYY-MM-DD."))

/-- Second `start_time` rule of the historic tool (lines 204-205):
`start_time is not None and strptime(start_time) > now().replace(day=1)`;
the parse is *not* guarded, so a malformed non-`None` value raises here.
With `now()` strictly after midnight the datetime comparison amounts to a
strict date comparison against the first of the current month. -/
def cdsHistStartPastRule (c : Clock) : ValidationRule := fun args =>
  let v := getArg args "start_time"
  if v.isPyNone then .ok Option.none
  else
    match strptimeYMD v with
    | .error e => .error e
    | .ok d =>
        if c.monthStart.lt d then
          .ok (some ("Invalid start time: " ++ pyStrOfValue v ++
            ". It should be in the past, at least in the previous month."))
        else .ok Option.none

/-- `try_default(lambda: strptime(e, "%Y-%m") <= strptime(s, "%Y-%m"), False)`
of the second `end_time` rule: both parses guarded, default `False`.
Note a full `YYYY-MM-DD` string does not parse as `%Y-%m`. -/
def tryYMLe (e s : Value) : Bool :=
  match e.asPyStr?, s.asPyStr? with
  | some es, some ss =>
      match parseDateYM es, parseDateYM ss with
      | some de, some ds => de.le ds
      | _, _ => false
  | _, _ => false

/-- Second `end_time` rule of the historic tool (lines 210-211). -/
def cdsHistEndAfterStartRule : ValidationRule := fun args =>
  let s := getArg args "start_time"
  let e := getArg args "end_time"
  if s.isPyNone || e.isPyNone then .ok Option.none
  else if tryYMLe e s then
    .ok (some ("Invalid end time: " ++ pyStrOfValue e ++
      ". It should be at least one month after the init time."))
  else .ok Option.none

/-- Third `end_time` rule of the historic tool (lines 212-213):
`end_time is not None and strptime(end_time) >= now().replace(day=1)`,
parse unguarded; with `now()` strictly after midnight this too amounts to
a strict date comparison against the first of the current month. -/
def cdsHistEndPastRule (c : Clock) : ValidationRule := fun args =>
  let v := getArg args "end_time"
  if v.isPyNone then .ok Option.none
  else
    match strptimeYMD v with
    | .error e => .error e
    | .ok d =>
        if c.monthStart.lt d then
          .ok (some ("Invalid end time: " ++ pyStrOfValue v ++
            ". It should be at least in the previous month with respect to the current date"))
        else .ok Option.none

/-- `CDSHistoricNotebookTool._set_args_validation_rules`
(lines 186-215). -/
def cdsHistoricValidationRules (c : Clock) : String → List ValidationRule :=
  fun k =>
    if k = "historic_dataset" then [cdsHistDatasetRule]
    else if k = "historic_variables" then [cdsHistVariablesRule]
    else if k = "area" then [bboxAreaRule]
    else if k = "start_time" then
      [dateFormatRule "start_time" "start time", cdsHistStartPastRule c]
    else if k = "end_time" then
      [dateFormatRule "end_time" "end time", cdsHistEndAfterStartRule,
       cdsHistEndPastRule c]
    else []

/-- Python `a > b` restricted to the value shapes reachable in the time
inference rules (numbers/booleans numerically, strings and `str`-enums
lexicographically); other combinations raise `TypeError` as Python does
for unordered cross-type comparisons. -/
def pyGtValue (a b : Value) : Except PyErr Bool :=
  match a, b with
  | .num x, .num y => .ok (y.ltb x)
  | .num x, .bool y => .ok (PyNum.ltb ⟨if y then 1 else 0, 0⟩ x)
  | .bool x, .num y => .ok (y.ltb ⟨if x then 1 else 0, 0⟩)
  | .bool x, .bool y => .ok (decide (y < x))
  | a', b' =>
      match a'.asPyStr?, b'.asPyStr? with
      | some x, some y => .ok (pyStrLt y x)
      | _, _ => .error (.typeError "not supported between instances")

/-- Python `a < b` on the same domain. -/
def pyLtValue (a b : Value) : Except PyErr Bool :=
  pyGtValue b a

/-- `infer_historic_dataset` (lines 221-224): `from_str` with
`raise_error=True`. -/
def cdsHistInferDataset : InferenceRule := fun args st =>
  (match histDatasetFromStr (getArg args "historic_dataset") with
   | .error e => .error e
   | .ok Option.none =>
       .error (.valueError "is not a valid InputHistoricCDSDataset member")
   | .ok (some d) => .ok (.histDataset d), st)

/-- `infer_historic_variables` (lines 226-233): maps `from_str` with
`raise_error=True` over the list.  The intermediate
`unique_variables(list(set(...)))` result is computed and then discarded
by the source (it returns `alias_to_enum(ka['historic_variables'])`
again), so the net effect is the un-deduplicated map. -/
def cdsHistInferVariables : InferenceRule := fun args st =>
  (match pyIter (getArg args "historic_variables") with
   | .error e => .error e
   | .ok vs =>
       match mapHistVarsRaise vs with
       | .error e => .error e
       | .ok ws => .ok (.list (ws.map Value.histVar)), st)

/-- `round_bounding_box` body for a list value at rounding precision 1
(historic tool, lines 246-254): rebuilds the 4-element list
`[floor(a[0]), floor(a[1]), ceil(a[2]), ceil(a[3])]`, raising
`IndexError`/`TypeError` exactly where Python would. -/
def roundBBox (vs : List Value) (precision : ℕ) : Except PyErr Value := do
  let a0 ← pyIndex vs 0
  let b0 ← floorDecimalsValue a0 precision
  let a1 ← pyIndex vs 1
  let b1 ← floorDecimalsValue a1 precision
  let a2 ← pyIndex vs 2
  let b2 ← ceilDecimalsValue a2 precision
  let a3 ← pyIndex vs 3
  let b3 ← ceilDecimalsValue a3 precision
  pure (.list [b0, b1, b2, b3])

/-- `infer_area` of the historic tool (lines 235-257):
`bounding_box_from_location_name` replaces an (exactly-)`str` area with
the geocoding model response and flips `execution_confirmed` to `False`;
`round_bounding_box` then rounds an (exactly-)`list` area at precision 1.
Any other shape passes through untouched. -/
def cdsHistInferArea (geo : String → Value) : InferenceRule := fun args st =>
  let p : Value × ToolState :=
    match getArg args "area" with
    | .str s => (geo s, { st with executionConfirmed := false })
    | v => (v, st)
  match p.1 with
  | .list vs => (roundBBox vs 1, p.2)
  | v => (.ok v, p.2)

/-- `infer_start_time` (lines 259-264).  A `None` start defaults to
`(now().date() - relativedelta(month=2)).strftime("%Y-%m-01")`; note the
source passes the *absolute* `month=2` (not `months=2`), so the result is
the current date with its month field replaced by 2.  Otherwise, if an end
time exists and compares smaller, the end value is returned. -/
def cdsHistInferStart (c : Clock) : InferenceRule := fun args st =>
  (match getArg args "start_time" with
   | .pyNone => .ok (.str (strftimeYM01 { c.today with month := 2 }))
   | s =>
     let e := getArg args "end_time"
     if e.isPyNone then .ok s
     else
       match pyGtValue s e with
       | .error er => .error er
       | .ok true => .ok e
       | .ok false => .ok s, st)

/-- `infer_end_time` (lines 266-271), symmetric (absolute `month=1`
default). -/
def cdsHistInferEnd (c : Clock) : InferenceRule := fun args st =>
  (match getArg args "end_time" with
   | .pyNone => .ok (.str (strftimeYM01 { c.today with month := 1 }))
   | e =>
     let s := getArg args "start_time"
     if s.isPyNone then .ok e
     else
       match pyLtValue e s with
       | .error er => .error er
       | .ok true => .ok s
       | .ok false => .ok e, st)

/-- `"-".join([v.as_icisk for v in vs])` for historic variables; the
attribute access raises on non-members. -/
def joinIciskHist : List Value → Except PyErr (List String)
  | [] => .ok []
  | v :: vs =>
      match v with
      | .histVar w => (joinIciskHist vs).map (w.asIcisk :: ·)
      | _ => .error (.attributeError "as_icisk")

/-- `infer_zarr_output` (lines 273-278). -/
def cdsHistInferZarr (c : Clock) : InferenceRule := fun args st =>
  (match getArg args "zarr_output" with
   | .pyNone =>
     match pyIter (getArg args "historic_variables") with
     | .error e => .error e
     | .ok vs =>
         match joinIciskHist vs with
         | .error e => .error e
         | .ok names =>
             .ok (.str ("icisk-ai_cds-historic-" ++
               joinWithSep "-" names ++ "_" ++ c.iso ++ ".zarr"))
   | v =>
     match v.asPyStr? with
     | Option.none => .error (.attributeError "endswith")
     | some s =>
         if pyEndsWith s ".zarr" then .ok v else .ok (.str (s ++ ".zarr")), st)

/-- `infer_jupyter_notebook` (lines 280-285). -/
def cdsHistInferNotebook (c : Clock) : InferenceRule := fun args st =>
  (match getArg args "jupyter_notebook" with
   | .pyNone =>
     match pyIter (getArg args "historic_variables") with
     | .error e => .error e
     | .ok vs =>
         match joinIciskHist vs with
         | .error e => .error e
         | .ok names =>
             .ok (.str ("icisk-ai_cds-historic-" ++
               joinWithSep "-" names ++ "_" ++ c.iso ++ ".ipynb"))
   | v =>
     match v.asPyStr? with
     | Option.none => .error (.attributeError "endswith")
     | some s =>
         if pyEndsWith s ".ipynb" then .ok v else .ok (.str (s ++ ".ipynb")), st)

/-- `CDSHistoricNotebookTool._set_args_inference_rules`
(lines 219-295). -/
def cdsHistoricInferenceRules (o : Oracles) : String → Option InferenceRule :=
  fun k =>
    if k = "historic_dataset" then some cdsHistInferDataset
    else if k = "historic_variables" then some cdsHistInferVariables
    else if k = "area" then some (cdsHistInferArea o.geo)
    else if k = "start_time" then some (cdsHistInferStart o.clock)
    else if k = "end_time" then some (cdsHistInferEnd o.clock)
    else if k = "zarr_output" then some (cdsHistInferZarr o.clock)
    else if k = "jupyter_notebook" then some (cdsHistInferNotebook o.clock)
    else Option.none

/-- `[InputHistoricVariable(v) for v in vs]` conversions used by
`_execute`. -/
def mapHistVarsByValue : List Value → Except PyErr (List HistVariable)
  | [] => .ok []
  | v :: vs =>
      match histVarByValue v with
      | .error e => .error e
      | .ok w => (mapHistVarsByValue vs).map (w :: ·)

/-- `CDSHistoricNotebookTool._execute` (lines 311-353): builds and
persists the notebook (`prepare_notebook` + `write_notebook_template` +
`DBI.save_notebook`, recorded as a durable effect), resets
`execution_confirmed` to `False` ("back to a consistent state") and
returns `{"data_source": zarr_output, "notebook": jupyter_notebook}`.
The enum conversions in `nb_values` raise on non-member values. -/
def cdsHistoricExecute : Args → ToolState → (Except PyErr Output) × ToolState :=
  fun args st =>
    let nb := getArg args "jupyter_notebook"
    let zarr := getArg args "zarr_output"
    match histDatasetByValue (getArg args "historic_dataset") with
    | .error e => (.error e, st)
    | .ok _ =>
      match pyIter (getArg args "historic_variables") with
      | .error e => (.error e, st)
      | .ok vs =>
        match mapHistVarsByValue vs with
        | .error e => (.error e, st)
        | .ok _ =>
            (.ok [("data_source", zarr), ("notebook", nb)],
             { st with
                executionConfirmed := false
                effects := st.effects ++ [.saveNotebook (pyStrOfValue nb)] })

/-- `CDSHistoricNotebookTool.InputSchema` key order and `is_required()`
flags: the three fields declared without `default=` are required. -/
def cdsHistoricSchema : List (String × Bool) :=
  [("historic_dataset", true), ("historic_variables", true), ("area", true),
   ("start_time", false), ("end_time", false), ("zarr_output", false),
   ("jupyter_notebook", false)]

/-- `CDSHistoricNotebookTool` as a tool configuration.  `__init__`
(lines 171-182) sets `output_confirmed = True`; `execution_confirmed`
keeps the `BaseAgentTool` default `False`. -/
def cdsHistoricTool (o : Oracles) : ToolConfig :=
  { name := "cds_historic_notebook_tool"
    schema := cdsHistoricSchema
    validationRules := cdsHistoricValidationRules o.clock
    inferenceRules := cdsHistoricInferenceRules o
    execute := cdsHistoricExecute
    initialExecutionConfirmed := false
    initialOutputConfirmed := true }

/-! ## `nodes/tools/code_editor_tool.py` — CodeEditorTool -/

/-- Validation rule on `source` (lines 63-69): fires iff
`DBI.notebook_by_name(author, source)` finds nothing. -/
def codeEditorSourceRule (dbiHasNotebook : Value → Bool) : ValidationRule :=
  fun args =>
    let v := getArg args "source"
    if dbiHasNotebook v then .ok Option.none
    else
      .ok (some ("Invalid source: " ++ pyStrOfValue v ++
        ". It should be the name of a notebook uploaded on databse."))

/-- `CodeEditorTool._execute` (lines 72-126).  When `output_confirmed` is
`False` it only *generates* code with the language model (no durable
write); when `output_confirmed` is `True` it re-reads
`self.output["generated_code"]` (the stored previous output) and performs
the durable write (`add_source_code`: append a cell and
`DBI.save_notebook`).  In both branches it then sets
`output_confirmed = False` ("back to a consistent state") and returns
`{"notebook": source, "generated_code": generated_code}`. -/
def codeEditorExecute (o : Oracles) :
    Args → ToolState → (Except PyErr Output) × ToolState :=
  fun args st =>
    let source := getArg args "source"
    let codeRequest := getArg args "code_request"
    if !st.outputConfirmed then
      (.ok [("notebook", source), ("generated_code", .str (o.genCode codeRequest))],
       { st with outputConfirmed := false })
    else
      match st.output with
      | Option.none => (.error (.typeError "NoneType is not subscriptable"), st)
      | some out =>
        match (out.find? (fun p => p.1 = "generated_code")).map Prod.snd with
        | Option.none => (.error (.keyError "generated_code"), st)
        | some code =>
            (.ok [("notebook", source), ("generated_code", code)],
             { st with
                outputConfirmed := false
                effects := st.effects ++ [.saveNotebook (pyStrOfValue source)] })

/-- `CodeEditorTool.InputSchema`: `source` has `default=None` (optional),
`code_request` has no default (required). -/
def codeEditorSchema : List (String × Bool) :=
  [("source", false), ("code_request", true)]

/-- `CodeEditorTool`: `__init__` (lines 51-60) sets
`execution_confirmed = True` ("skip this, there will be
output_confirmed"); `output_confirmed` keeps the `BaseAgentTool` default
`False`.  It registers no inference rules. -/
def codeEditorTool (o : Oracles) : ToolConfig :=
  { name := "code_editor_tool"
    schema := codeEditorSchema
    validationRules := fun k =>
      if k = "source" then [codeEditorSourceRule o.dbiHasNotebook] else []
    inferenceRules := fun _ => Option.none
    execute := codeEditorExecute o
    initialExecutionConfirmed := true
    initialOutputConfirmed := false }

/-! ## `nodes/tools/cds_forecast_notebook_tool.py` — CDSForecastNotebookTool -/

/-- Python `len(v)` for sized values. -/
def pyLen : Value → Except PyErr ℕ
  | .list vs => .ok vs.length
  | .tuple vs => .ok vs.length
  | .str s => .ok s.data.length
  | .dict kvs => .ok kvs.length
  | .histDataset d => .ok d.valueStr.length
  | .histVar v => .ok v.valueStr.length
  | .fcVar v => .ok v.valueStr.length
  | _ => .error (.typeError "object has no len")

/-- Calendar month addition with the day fixed to 1 (the only uses are on
`now().replace(day=1) + relativedelta(months=n)`). -/
def addMonths (d : Date) (n : ℕ) : Date :=
  let m := d.month + n
  if m > 12 then { year := d.year + (m - 1) / 12, month := (m - 1) % 12 + 1, day := d.day }
  else { d with month := m }

/-- `cls[name]` lookup for `InputForecastVariable`. -/
def fcVarOfName? (a : String) : Option ForecastVariable :=
  if a = "total_precipitation" then some .totalPrecipitation
  else if a = "temperature" then some .temperature
  else if a = "glofas" then some .glofas
  else Option.none

/-- `InputForecastVariable.from_str` (lines 55-69): member-name lookup,
then `prec` / `temp` / `glofas` / `discharge` substring fallbacks. -/
def fcVarFromStrS (a : String) : Option ForecastVariable :=
  match fcVarOfName? a with
  | some v => some v
  | Option.none =>
    if pyContains "prec" a then some .totalPrecipitation
    else if pyContains "temp" a then some .temperature
    else if pyContains "glofas" a then some .glofas
    else if pyContains "discharge" a then some .glofas
    else Option.none

def fcVarFromStr (v : Value) : Except PyErr (Option ForecastVariable) :=
  match v.asPyStr? with
  | some a => .ok (fcVarFromStrS a)
  | Option.none => .error (.typeError "from_str on a non-string alias")

/-- `InputForecastVariable.as_icisk` (lines 43-49). -/
def ForecastVariable.asIcisk : ForecastVariable → String
  | .totalPrecipitation => "tp"
  | .temperature => "t2m"
  | .glofas => "dis24"

/-- Enum construction by value, `InputForecastVariable(x)`. -/
def fcVarByValue : Value → Except PyErr ForecastVariable
  | .fcVar v => .ok v
  | .str s =>
      if s = "total_precipitation" then .ok .totalPrecipitation
      else if s = "temperature" then .ok .temperature
      else if s = "glofas" then .ok .glofas
      else .error (.valueError "is not a valid InputForecastVariable")
  | _ => .error (.valueError "is not a valid InputForecastVariable")

/-- `[from_str(v) for v in vs]` (no raise flag) for forecast variables. -/
def mapFcVarsOpt : List Value → Except PyErr (List (Option ForecastVariable))
  | [] => .ok []
  | v :: vs =>
      match fcVarFromStr v with
      | .error e => .error e
      | .ok w => (mapFcVarsOpt vs).map (w :: ·)

/-- `[v for v in vs if from_str(v) is None]` for forecast variables. -/
def collectBadFcVars : List Value → Except PyErr (List Value)
  | [] => .ok []
  | v :: vs =>
      match fcVarFromStr v with
      | .error e => .error e
      | .ok Option.none => (collectBadFcVars vs).map (v :: ·)
      | .ok (some _) => collectBadFcVars vs

/-- `[from_str(v, raise_error=True) for v in vs]` for forecast
variables. -/
def mapFcVarsRaise : List Value → Except PyErr (List ForecastVariable)
  | [] => .ok []
  | v :: vs =>
      match fcVarFromStr v with
      | .error e => .error e
      | .ok Option.none =>
          .error (.valueError "is not a valid InputForecastVariable member")
      | .ok (some w) => (mapFcVarsRaise vs).map (w :: ·)

/-- First validation rule on `forecast_variables` (lines 169-170). -/
def cdsFcVariablesRule : ValidationRule := fun args =>
  match pyIter (getArg args "forecast_variables") with
  | .error e => .error e
  | .ok vs =>
      match collectBadFcVars vs with
      | .error e => .error e
      | .ok bad =>
          if bad.length > 0 then
            .ok (some ("Invalid forecast variables: " ++ pyStrList bad ++
              ". It should be a list of valid CDS forecast variables: [[total_precipitation, temperature, glofas]]."))
          else .ok Option.none

/-- Second validation rule on `forecast_variables` (lines 171-172):
GLOFAS may not be combined with other variables. -/
def cdsFcGlofasComboRule : ValidationRule := fun args =>
  let v := getArg args "forecast_variables"
  match pyIter v with
  | .error e => .error e
  | .ok vs =>
      match mapFcVarsOpt vs with
      | .error e => .error e
      | .ok ws =>
          if ws.contains (some .glofas) then
            match pyLen v with
            | .error e => .error e
            | .ok n =>
                if n > 1 then
                  .ok (some ("Invalid combination of variables: " ++ pyStrOfValue v ++
                    ". By now, due to different data proveder settings, GLOFAS cant be used in the same tool with other variables."))
                else .ok Option.none
          else .ok Option.none

/-- Second `init_time` rule of the forecast tool (lines 181-182):
`strptime(init_time) > datetime.now()`, parse unguarded; with `now()`
strictly after midnight this is a strict date comparison against
today. -/
def cdsFcInitPastRule (c : Clock) : ValidationRule := fun args =>
  let v := getArg args "init_time"
  if v.isPyNone then .ok Option.none
  else
    match strptimeYMD v with
    | .error e => .error e
    | .ok d =>
        if c.today.lt d then
          .ok (some ("Invalid initialization time: " ++ pyStrOfValue v ++
            ". It should be in the past, at least in the previous month."))
        else .ok Option.none

/-- Second `lead_time` rule of the forecast tool (lines 187-188), the
guarded month-granularity comparison against `init_time`. -/
def cdsFcLeadAfterInitRule : ValidationRule := fun args =>
  let i := getArg args "init_time"
  let l := getArg args "lead_time"
  if i.isPyNone || l.isPyNone then .ok Option.none
  else if tryYMLe l i then
    .ok (some ("Invalid lead time: " ++ pyStrOfValue l ++
      ". It should be at least one month after the init time."))
  else .ok Option.none

/-- Third `lead_time` rule (lines 189-192): for non-GLOFAS requests the
lead may be at most `now().replace(day=1) + relativedelta(months=6)`;
the membership scan and the unguarded parse raise as in Python. -/
def cdsFcLeadBoundRule (c : Clock) : ValidationRule := fun args =>
  let l := getArg args "lead_time"
  if l.isPyNone then .ok Option.none
  else
    match pyIter (getArg args "forecast_variables") with
    | .error e => .error e
    | .ok vs =>
      match mapFcVarsOpt vs with
      | .error e => .error e
      | .ok ws =>
          if ws.contains (some .glofas) then .ok Option.none
          else
            match strptimeYMD l with
            | .error e => .error e
            | .ok d =>
                if (addMonths c.monthStart 6).lt d then
                  .ok (some ("Invalid lead time: " ++ pyStrOfValue l ++
                    ". It should be no more than 6 months in the future."))
                else .ok Option.none

/-- Fourth `lead_time` rule (lines 193-196): for GLOFAS requests the lead
may be at most one month ahead. -/
def cdsFcLeadGlofasBoundRule (c : Clock) : ValidationRule := fun args =>
  let l := getArg args "lead_time"
  if l.isPyNone then .ok Option.none
  else
    match pyIter (getArg args "forecast_variables") with
    | .error e => .error e
    | .ok vs =>
      match mapFcVarsOpt vs with
      | .error e => .error e
      | .ok ws =>
          if ws.contains (some .glofas) then
            match strptimeYMD l with
            | .error e => .error e
            | .ok d =>
                if (addMonths c.monthStart 1).lt d then
                  .ok (some ("Invalid lead time: " ++ pyStrOfValue l ++
                    ". It should be no more than 1 months in the future for the glofas data."))
                else .ok Option.none
          else .ok Option.none

/-- `CDSForecastNotebookTool._set_args_validation_rules`
(lines 165-198). -/
def cdsForecastValidationRules (c : Clock) : String → List ValidationRule :=
  fun k =>
    if k = "forecast_variables" then [cdsFcVariablesRule, cdsFcGlofasComboRule]
    else if k = "area" then [bboxAreaRule]
    else if k = "init_time" then
      [dateFormatRule "init_time" "initialization time", cdsFcInitPastRule c]
    else if k = "lead_time" then
      [dateFormatRule "lead_time" "lead time", cdsFcLeadAfterInitRule,
       cdsFcLeadBoundRule c, cdsFcLeadGlofasBoundRule c]
    else []

/-- `dataset_from_variables` (lines 278-282). -/
def fcDatasetFromVariables (v : Value) : Except PyErr String :=
  match pyIter v with
  | .error e => .error e
  | .ok vs =>
      match mapFcVarsOpt vs with
      | .error e => .error e
      | .ok ws =>
          if ws.contains (some .glofas) then .ok "cems-glofas-seasonal"
          else .ok "seasonal-original-single-levels"

/-- Worker for `dedupFcVars` with the already-seen accumulator. -/
def dedupFcVarsGo : List ForecastVariable → List ForecastVariable →
    List ForecastVariable
  | _, [] => []
  | seen, v :: vs =>
      if seen.contains v then dedupFcVarsGo seen vs
      else v :: dedupFcVarsGo (v :: seen) vs

/-- First-occurrence deduplication modelling `list(set(...))` (the hash
order of a Python set is unspecified; the claims do not depend on it). -/
def dedupFcVars (vs : List ForecastVariable) : List ForecastVariable :=
  dedupFcVarsGo [] vs

/-- `infer_forecast_variables` (lines 204-211): map `from_str` with
`raise_error=True`, then deduplicate; unlike the historic twin this one
*returns* the deduplicated list. -/
def cdsFcInferVariables : InferenceRule := fun args st =>
  (match pyIter (getArg args "forecast_variables") with
   | .error e => .error e
   | .ok vs =>
       match mapFcVarsRaise vs with
       | .error e => .error e
       | .ok ws => .ok (.list ((dedupFcVars ws).map Value.fcVar)), st)

/-- `infer_area` of the forecast tool (lines 213-241): geocode an
(exactly-)`str` area, then for an (exactly-)`list` area round at the
precision chosen by `dataset_from_variables` — 0 for the seasonal
dataset, 1 for GLOFAS — skipping rounding when `forecast_variables` is
`None`. -/
def cdsFcInferArea (geo : String → Value) : InferenceRule := fun args st =>
  let p : Value × ToolState :=
    match getArg args "area" with
    | .str s => (geo s, { st with executionConfirmed := false })
    | v => (v, st)
  match p.1 with
  | .list vs =>
      let fv := getArg args "forecast_variables"
      if fv.isPyNone then (.ok (.list vs), p.2)
      else
        match fcDatasetFromVariables fv with
        | .error e => (.error e, p.2)
        | .ok ds =>
            (roundBBox vs (if ds = "cems-glofas-seasonal" then 1 else 0), p.2)
  | v => (.ok v, p.2)

/-- `infer_init_time` (lines 243-246): a `None` init defaults to
`now().replace(day=1).strftime("%Y-%m-%d")`. -/
def cdsFcInferInit (c : Clock) : InferenceRule := fun args st =>
  (match getArg args "init_time" with
   | .pyNone => .ok (.str (strftimeYMD c.monthStart))
   | v => .ok v, st)

/-- `infer_lead_time` (lines 248-251): a `None` lead defaults to
`(now().replace(day=1) + relativedelta(month=1)).strftime("%Y-%m-%d")`;
note the *absolute* `month=1`, so the month field is set to January. -/
def cdsFcInferLead (c : Clock) : InferenceRule := fun args st =>
  (match getArg args "lead_time" with
   | .pyNone => .ok (.str (strftimeYMD { c.today with month := 1, day := 1 }))
   | v => .ok v, st)

/-- `"-".join([v.as_icisk for v in vs])` for forecast variables. -/
def joinIciskFc : List Value → Except PyErr (List String)
  | [] => .ok []
  | v :: vs =>
      match v with
      | .fcVar w => (joinIciskFc vs).map (w.asIcisk :: ·)
      | _ => .error (.attributeError "as_icisk")

/-- `infer_zarr_output` of the forecast tool (lines 253-258). -/
def cdsFcInferZarr (c : Clock) : InferenceRule := fun args st =>
  (match getArg args "zarr_output" with
   | .pyNone =>
     match pyIter (getArg args "forecast_variables") with
     | .error e => .error e
     | .ok vs =>
         match joinIciskFc vs with
         | .error e => .error e
         | .ok names =>
             .ok (.str ("icisk-ai_cds-forecast-" ++
               joinWithSep "-" names ++ "_" ++ c.iso ++ ".zarr"))
   | v =>
     match v.asPyStr? with
     | Option.none => .error (.attributeError "endswith")
     | some s =>
         if pyEndsWith s ".zarr" then .ok v else .ok (.str (s ++ ".zarr")), st)

/-- `infer_jupyter_notebook` of the forecast tool (lines 260-265). -/
def cdsFcInferNotebook (c : Clock) : InferenceRule := fun args st =>
  (match getArg args "jupyter_notebook" with
   | .pyNone =>
     match pyIter (getArg args "forecast_variables") with
     | .error e => .error e
     | .ok vs =>
         match joinIciskFc vs with
         | .error e => .error e
         | .ok names =>
             .ok (.str ("icisk-ai_cds-forecast-" ++
               joinWithSep "-" names ++ "_" ++ c.iso ++ ".ipynb"))
   | v =>
     match v.asPyStr? with
     | Option.none => .error (.attributeError "endswith")
     | some s =>
         if pyEndsWith s ".ipynb" then .ok v else .ok (.str (s ++ ".ipynb")), st)

/-- `CDSForecastNotebookTool._set_args_inference_rules`
(lines 202-274). -/
def cdsForecastInferenceRules (o : Oracles) : String → Option InferenceRule :=
  fun k =>
    if k = "forecast_variables" then some cdsFcInferVariables
    else if k = "area" then some (cdsFcInferArea o.geo)
    else if k = "init_time" then some (cdsFcInferInit o.clock)
    else if k = "lead_time" then some (cdsFcInferLead o.clock)
    else if k = "zarr_output" then some (cdsFcInferZarr o.clock)
    else if k = "jupyter_notebook" then some (cdsFcInferNotebook o.clock)
    else Option.none

/-- `[InputForecastVariable(v) for v in vs]` conversions used by
`_execute`. -/
def mapFcVarsByValue : List Value → Except PyErr (List ForecastVariable)
  | [] => .ok []
  | v :: vs =>
      match fcVarByValue v with
      | .error e => .error e
      | .ok w => (mapFcVarsByValue vs).map (w :: ·)

/-- `CDSForecastNotebookTool._execute` (lines 298-340): builds and
persists the notebook, resets `execution_confirmed` to `False` and
returns `{"data_source": zarr_output, "notebook": jupyter_notebook}`. -/
def cdsForecastExecute : Args → ToolState → (Except PyErr Output) × ToolState :=
  fun args st =>
    let nb := getArg args "jupyter_notebook"
    let zarr := getArg args "zarr_output"
    match fcDatasetFromVariables (getArg args "forecast_variables") with
    | .error e => (.error e, st)
    | .ok _ =>
      match pyIter (getArg args "forecast_variables") with
      | .error e => (.error e, st)
      | .ok vs =>
        match mapFcVarsByValue vs with
        | .error e => (.error e, st)
        | .ok _ =>
            (.ok [("data_source", zarr), ("notebook", nb)],
             { st with
                executionConfirmed := false
                effects := st.effects ++ [.saveNotebook (pyStrOfValue nb)] })

/-- `CDSForecastNotebookTool.InputSchema` key order and requiredness. -/
def cdsForecastSchema : List (String × Bool) :=
  [("forecast_variables", true), ("area", true), ("init_time", false),
   ("lead_time", false), ("zarr_output", false), ("jupyter_notebook", false)]

/-- `CDSForecastNotebookTool`: `__init__` (lines 147-161) sets
`output_confirmed = True`. -/
def cdsForecastTool (o : Oracles) : ToolConfig :=
  { name := "cds_forecast_notebook_tool"
    schema := cdsForecastSchema
    validationRules := cdsForecastValidationRules o.clock
    inferenceRules := cdsForecastInferenceRules o
    execute := cdsForecastExecute
    initialExecutionConfirmed := false
    initialOutputConfirmed := true }

/-! ## `nodes/tools/spi_forecast_notebook_tool.py` — SPIForecastNotebookTool -/

/-- Python indexing `v[i]` on a sized value. -/
def pyIndexValue (v : Value) (i : ℕ) : Except PyErr Value :=
  match v with
  | .list vs => pyIndex vs i
  | .tuple vs => pyIndex vs i
  | .str s =>
      match s.data.get? i with
      | some c => .ok (.str (String.singleton c))
      | Option.none => .error .indexError
  | _ => .error (.typeError "object is not subscriptable")

/-- First `reference_period` rule (lines 117-118):
`type(rp) not in (tuple, list) or len(rp) != 2`. -/
def spiRefPeriodShapeRule : ValidationRule := fun args =>
  let v := getArg args "reference_period"
  let bad : Bool :=
    match v with
    | .tuple vs => vs.length != 2
    | .list vs => vs.length != 2
    | _ => true
  if bad then
    .ok (some ("Invalid reference_period: " ++ pyStrOfValue v ++
      ". It should be a tuple of start and ending year as integers."))
  else .ok Option.none

/-- Second `reference_period` rule (lines 119-120):
`rp[1] > datetime.now().year`, with the indexing and comparison unguarded
(this rule is evaluated even when the shape rule already fired, because
the recording loop never breaks). -/
def spiRefPeriodPastRule (c : Clock) : ValidationRule := fun args =>
  match pyIndexValue (getArg args "reference_period") 1 with
  | .error e => .error e
  | .ok v1 =>
      match pyGtValue v1 (.num ⟨(c.today.year : ℤ), 0⟩) with
      | .error e => .error e
      | .ok true =>
          .ok (some ("Invalid reference_period: " ++
            pyStrOfValue (getArg args "reference_period") ++
            ". It should be in the past, at least in the previous year."))
      | .ok false => .ok Option.none

/-- Second `init_time` rule of the SPI tool (lines 125-126):
`strptime(init_time) > datetime.now()`, unguarded parse. -/
def spiInitPastRule (c : Clock) : ValidationRule := fun args =>
  let v := getArg args "init_time"
  if v.isPyNone then .ok Option.none
  else
    match strptimeYMD v with
    | .error e => .error e
    | .ok d =>
        if c.today.lt d then
          .ok (some ("Invalid initialization time: " ++ pyStrOfValue v ++
            ". It should be in the past, at least in the previous month."))
        else .ok Option.none

/-- Second `lead_time` rule of the SPI tool (lines 131-132): the guarded
full-date comparison `strptime(lead) < strptime(init)` with default
`False`. -/
def spiLeadAfterInitRule : ValidationRule := fun args =>
  let i := getArg args "init_time"
  let l := getArg args "lead_time"
  if i.isPyNone || l.isPyNone then .ok Option.none
  else
    let fired :=
      match tryStrptimeYMD l, tryStrptimeYMD i with
      | some dl, some di => dl.lt di
      | _, _ => false
    if fired then
      .ok (some ("Invalid lead time: " ++ pyStrOfValue l ++
        ". It should be in the after the init time."))
    else .ok Option.none

/-- Third `lead_time` rule of the SPI tool (lines 133-134): at most six
months ahead of the month start, unguarded parse. -/
def spiLeadBoundRule (c : Clock) : ValidationRule := fun args =>
  let l := getArg args "lead_time"
  if l.isPyNone then .ok Option.none
  else
    match strptimeYMD l with
    | .error e => .error e
    | .ok d =>
        if (addMonths c.monthStart 6).lt d then
          .ok (some ("Invalid lead time: " ++ pyStrOfValue l ++
            ". It should be no more than 6 months in the future."))
        else .ok Option.none

/-- `jupyter_notebook` rule of the SPI tool (lines 136-139):
`nb is not None and not nb.lower().endswith(".ipynb")`; the `lower()`
attribute access raises on non-strings. -/
def spiNotebookRule : ValidationRule := fun args =>
  let v := getArg args "jupyter_notebook"
  if v.isPyNone then .ok Option.none
  else
    match v.asPyStr? with
    | Option.none => .error (.attributeError "lower")
    | some s =>
        if pyEndsWith (pyLower s) ".ipynb" then .ok Option.none
        else
          .ok (some ("Invalid notebook path: " ++ pyStrOfValue v ++
            ". It should be a valid jupyter notebook file path."))

/-- `SPIForecastNotebookTool._set_args_validation_rules`
(lines 109-140). -/
def spiValidationRules (c : Clock) : String → List ValidationRule :=
  fun k =>
    if k = "area" then [bboxAreaRule]
    else if k = "reference_period" then
      [spiRefPeriodShapeRule, spiRefPeriodPastRule c]
    else if k = "init_time" then
      [dateFormatRule "init_time" "initialization time", spiInitPastRule c]
    else if k = "lead_time" then
      [dateFormatRule "lead_time" "lead time", spiLeadAfterInitRule,
       spiLeadBoundRule c]
    else if k = "jupyter_notebook" then [spiNotebookRule]
    else []

/-- `infer_area` of the SPI tool (lines 146-157): only the geocoding
step, no rounding. -/
def spiInferArea (geo : String → Value) : InferenceRule := fun args st =>
  match getArg args "area" with
  | .str s => (.ok (geo s), { st with executionConfirmed := false })
  | v => (.ok v, st)

/-- `infer_jupyter_notebook` of the SPI tool (lines 169-172): only the
`None` default, no extension fix-up. -/
def spiInferNotebook (c : Clock) : InferenceRule := fun args st =>
  (match getArg args "jupyter_notebook" with
   | .pyNone => .ok (.str ("icisk-ai_spi-forecast_" ++ c.iso ++ ".ipynb"))
   | v => .ok v, st)

/-- `SPIForecastNotebookTool._set_args_inference_rules`
(lines 144-179). -/
def spiInferenceRules (o : Oracles) : String → Option InferenceRule :=
  fun k =>
    if k = "area" then some (spiInferArea o.geo)
    else if k = "init_time" then some (cdsFcInferInit o.clock)
    else if k = "lead_time" then some (cdsFcInferLead o.clock)
    else if k = "jupyter_notebook" then some (spiInferNotebook o.clock)
    else Option.none

/-- `SPIForecastNotebookTool._execute` (lines 196-219): builds and
persists the notebook, resets `execution_confirmed` to `False` and
returns `{"notebook": jupyter_notebook}`. -/
def spiExecute : Args → ToolState → (Except PyErr Output) × ToolState :=
  fun args st =>
    let nb := getArg args "jupyter_notebook"
    (.ok [("notebook", nb)],
     { st with
        executionConfirmed := false
        effects := st.effects ++ [.saveNotebook (pyStrOfValue nb)] })

/-- `SPIForecastNotebookTool.InputSchema` key order and requiredness:
only `area` lacks a default. -/
def spiSchema : List (String × Bool) :=
  [("area", true), ("reference_period", false), ("init_time", false),
   ("lead_time", false), ("jupyter_notebook", false)]

/-- `SPIForecastNotebookTool`: `__init__` (lines 96-105) sets
`output_confirmed = True`. -/
def spiForecastTool (o : Oracles) : ToolConfig :=
  { name := "spi_forecast_notebook_tool"
    schema := spiSchema
    validationRules := spiValidationRules o.clock
    inferenceRules := spiInferenceRules o
    execute := spiExecute
    initialExecutionConfirmed := false
    initialOutputConfirmed := true
    schemaDefault := fun k =>
      if k = "reference_period" then .tuple [.num ⟨1981, 0⟩, .num ⟨2010, 0⟩]
      else .pyNone }

/-- The four concrete tools of the repository (the registries of the
`cds_ingestor`, `spi_calculation` and `code_editor` sub-flows). -/
def repoTools (o : Oracles) : List ToolConfig :=
  [cdsHistoricTool o, cdsForecastTool o, spiForecastTool o, codeEditorTool o]

/-! ## Conversation state and messages -/

/-- A tool call requested by the language model: `name`, `args`,
correlation `id`. -/
structure ToolCall where
  id : String
  name : String
  args : Args

/-- The assistant message carrying `tool_calls`. -/
structure ToolMsg where
  id : String
  toolCalls : List ToolCall

/-- Conversation messages relevant to the embedded nodes. -/
inductive Msg where
  | ai (m : ToolMsg)
  | toolResult (name : String) (callId : String) (content : Output)
  | system (content : String)

/-- Entries of a node state-update `messages` list (`add_messages`
channel): `RemoveMessage`, a (possibly arg-updated) tool-call message,
a `SystemMessage`, or a tool-result message. -/
inductive MsgUpdate where
  | removeMessage (id : String)
  | aiMsg (m : ToolMsg)
  | system (content : String)
  | toolResult (name : String) (callId : String) (content : Output)

/-- The Suspend Context written by the tool handler into
`state["node_params"][tool_interrupt_node_name]`
(`base_tool_handler_node.py` lines 65-72). -/
structure SuspendCtx where
  toolMessage : ToolMsg
  toolInterrupt : ToolInterrupt
  toolHandlerNode : String

/-- Values stored under `node_params` keys: a stashed Suspend Context, or
the `chatbot_update_messages` payload `{"update_messages": [...]}`. -/
inductive NPVal where
  | suspend (ctx : SuspendCtx)
  | chatbotUpdate (updateMessages : List MsgUpdate)

/-- The conversation state (`BaseGraphState`) as the embedded nodes read
it: `messages` plus the plain-`dict` channel `node_params` (a plain dict
channel is *replaced*, not merged, by a state update). -/
structure GraphState where
  messages : List Msg
  nodeParams : List (String × NPVal)

def lookupStr {α : Type} (l : List (String × α)) (k : String) : Option α :=
  (l.find? (fun p => p.1 = k)).map Prod.snd

def setStr {α : Type} : List (String × α) → String → α → List (String × α)
  | [], k, v => [(k, v)]
  | (k', v') :: rest, k, v =>
      if k' = k then (k, v) :: rest else (k', v') :: setStr rest k v

/-- Routing destination of a `Command`: `END` or a named node. -/
inductive Goto where
  | endGraph
  | node (n : String)
deriving DecidableEq, Repr

/-- The `{'goto': ..., 'update': ...}` dictionary returned by a handler
strategy: destination, `messages` list, and the `node_params`
replacement when that key is present in the update. -/
structure Directive where
  goto : Goto
  messages : List MsgUpdate
  nodeParams : Option (List (String × NPVal))

/-! ## `dict.update` semantics for the argument-merge step -/

def mergeArgs (args : Args) : List (String × Value) → Args
  | [] => args
  | (k, v) :: rest => mergeArgs (setArg args k v) rest

/-- One element of a non-dict update sequence must be an iterable of
exactly two items; in this model keys must additionally be strings (the
argument dictionaries are string-keyed). -/
def kvOfElement : Value → Except PyErr (String × Value)
  | .list [k, v] =>
      match k.asPyStr? with
      | some s => .ok (s, v)
      | Option.none => .error (.typeError "unhashable or non-string key")
  | .tuple [k, v] =>
      match k.asPyStr? with
      | some s => .ok (s, v)
      | Option.none => .error (.typeError "unhashable or non-string key")
  | _ => .error (.valueError "dictionary update sequence element has bad length")

def kvListOfElements : List Value → Except PyErr (List (String × Value))
  | [] => .ok []
  | v :: vs =>
      match kvOfElement v with
      | .error e => .error e
      | .ok kv => (kvListOfElements vs).map (kv :: ·)

/-- Python `d.update(v)` on a string-keyed dict: a dict merges; an empty
sequence (including the empty string) is a no-op; a non-empty string
raises `ValueError` (its elements are length-1 strings); a sequence of
pairs merges; non-iterables raise `TypeError`. -/
def pyDictUpdate (args : Args) (v : Value) : Except PyErr Args :=
  match v with
  | .dict kvs => .ok (mergeArgs args kvs)
  | .str s =>
      if s.data.isEmpty then .ok args
      else .error (.valueError "dictionary update sequence element #0 has length 1; 2 is required")
  | .list vs =>
      match kvListOfElements vs with
      | .error e => .error e
      | .ok kvs => .ok (mergeArgs args kvs)
  | .tuple vs =>
      match kvListOfElements vs with
      | .error e => .error e
      | .ok kvs => .ok (mergeArgs args kvs)
  | .pyNone => .error (.typeError "NoneType object is not iterable")
  | .num _ => .error (.typeError "object is not iterable")
  | .bool _ => .error (.typeError "object is not iterable")
  | .histDataset d =>
      if d.valueStr.data.isEmpty then .ok args
      else .error (.valueError "dictionary update sequence element #0 has length 1; 2 is required")
  | .histVar w =>
      if w.valueStr.data.isEmpty then .ok args
      else .error (.valueError "dictionary update sequence element #0 has length 1; 2 is required")
  | .fcVar w =>
      if w.valueStr.data.isEmpty then .ok args
      else .error (.valueError "dictionary update sequence element #0 has length 1; 2 is required")

/-- `self.tool_message.tool_calls[-1]["args"].update(v)`: merges into the
last tool call of the message (in place in the source; functionally
here). -/
def updateLastCallArgs (tm : ToolMsg) (v : Value) : Except PyErr ToolMsg :=
  match tm.toolCalls.getLast? with
  | Option.none => .error .indexError
  | some call =>
      match pyDictUpdate call.args v with
      | .error e => .error e
      | .ok args' =>
          .ok { tm with toolCalls := tm.toolCalls.dropLast ++ [{ call with args := args' }] }

/-! ## `nodes/base/base_tool_interrupt_handler_node.py` — handler strategies

Each `handle` method composes a question with the language model
(stateless, routing-irrelevant; omitted), suspends via `interrupt(...)`
for the human `response`, and interprets the response with
`ask_llm(..., eval_output=True)`.  The suspension and the interpretation
are parameters here: `response` is the human reply, and the `interp`
values are the `askLlmEvalResult` of the respective interpretation
calls. -/

/-- The abort branch shared by all four strategies (e.g. lines 78-87):
remove the pending tool message, emit one system message, replace
`node_params` with only the `chatbot_update_messages` payload, and route
to `END`. -/
def abortDirective (tm : ToolMsg) (response : String) : Directive :=
  { goto := .endGraph
    messages :=
      [.removeMessage tm.id,
       .system ("User choose to exit the tool process with this response: " ++ response)]
    nodeParams :=
      some [("chatbot_update_messages",
        .chatbotUpdate
          [.removeMessage tm.id,
           .system ("User choose to exit the tool process with this response: " ++ response)])] }

/-- `BaseToolInterruptProvideArgsHandler.handle` (lines 67-96) after the
suspension: `None` interpretation aborts; otherwise the mapping is merged
into the pending call args and control routes back to the tool handler
node. -/
def provideArgsHandle (toolSt : ToolState) (ctx : SuspendCtx)
    (response : String) (interp : Value) :
    Except PyErr (Directive × ToolState) :=
  match interp with
  | .pyNone => .ok (abortDirective ctx.toolMessage response, toolSt)
  | v =>
      match updateLastCallArgs ctx.toolMessage v with
      | .error e => .error e
      | .ok tm' =>
          .ok ({ goto := .node ctx.toolHandlerNode
                 messages := [.aiMsg tm']
                 nodeParams := Option.none }, toolSt)

/-- `BaseToolInterruptInvalidArgsHandler.handle` (lines 138-167): same
skeleton as the provide-args strategy. -/
def invalidArgsHandle (toolSt : ToolState) (ctx : SuspendCtx)
    (response : String) (interp : Value) :
    Except PyErr (Directive × ToolState) :=
  match interp with
  | .pyNone => .ok (abortDirective ctx.toolMessage response, toolSt)
  | v =>
      match updateLastCallArgs ctx.toolMessage v with
      | .error e => .error e
      | .ok tm' =>
          .ok ({ goto := .node ctx.toolHandlerNode
                 messages := [.aiMsg tm']
                 nodeParams := Option.none }, toolSt)

/-- `BaseToolInterruptArgsConfirmationHandler.handle` (lines 202-233):
like the previous two, but the non-abort branch additionally sets
`self.tool.execution_confirmed = True` (line 227). -/
def argsConfirmationHandle (toolSt : ToolState) (ctx : SuspendCtx)
    (response : String) (interp : Value) :
    Except PyErr (Directive × ToolState) :=
  match interp with
  | .pyNone => .ok (abortDirective ctx.toolMessage response, toolSt)
  | v =>
      match updateLastCallArgs ctx.toolMessage v with
      | .error e => .error e
      | .ok tm' =>
          .ok ({ goto := .node ctx.toolHandlerNode
                 messages := [.aiMsg tm']
                 nodeParams := Option.none },
               { toolSt with executionConfirmed := true })

/-- `BaseToolInterruptOutputConfirmationHandler.handle` (lines 295-331):
`classifyInterp` is the `_classify_output_confirmation` result.  Exactly
the boolean `True` confirms (`output_confirmed = True`, route back);
exactly `False` merges `updateInterp` (the `_generate_provided_output`
result) and routes back with `output_confirmed = False`; *everything
else* — including `None` and unparsable replies — takes the abort
branch. -/
def outputConfirmationHandle (toolSt : ToolState) (ctx : SuspendCtx)
    (response : String) (classifyInterp : Value) (updateInterp : Value) :
    Except PyErr (Directive × ToolState) :=
  match classifyInterp with
  | .bool true =>
      .ok ({ goto := .node ctx.toolHandlerNode
             messages := [.aiMsg ctx.toolMessage]
             nodeParams := Option.none },
           { toolSt with outputConfirmed := true })
  | .bool false =>
      match updateLastCallArgs ctx.toolMessage updateInterp with
      | .error e => .error e
      | .ok tm' =>
          .ok ({ goto := .node ctx.toolHandlerNode
                 messages := [.aiMsg tm']
                 nodeParams := Option.none },
               { toolSt with outputConfirmed := false })
  | _ => .ok (abortDirective ctx.toolMessage response, toolSt)

/-! ## `BaseToolInterruptNode` — class-level strategy table and node -/

/-- Identity of a handler strategy object (each class-level default is a
distinct instance; customs are tool-subgraph-supplied objects). -/
inductive HandlerTag where
  | provideArgsDefault
  | invalidArgsDefault
  | argsConfirmationDefault
  | outputConfirmationDefault
  | custom (n : ℕ)
deriving DecidableEq, Repr

abbrev HandlerTable := List (InterruptType × HandlerTag)

def lookupTable (tbl : HandlerTable) (k : InterruptType) : Option HandlerTag :=
  (tbl.find? (fun p => p.1 = k)).map Prod.snd

def setTable : HandlerTable → InterruptType → HandlerTag → HandlerTable
  | [], k, v => [(k, v)]
  | (k', v') :: rest, k, v =>
      if k' = k then (k, v) :: rest else (k', v') :: setTable rest k v

/-- `dict.update` on the strategy table. -/
def tableUpdate (tbl custom : HandlerTable) : HandlerTable :=
  custom.foldl (fun t p => setTable t p.1 p.2) tbl

/-- The class attribute `BaseToolInterruptNode.tool_interupt_handlers`
(lines 355-360) in its pristine state: one default strategy instance per
interrupt kind. -/
def baseToolInteruptHandlers : HandlerTable :=
  [(.provideArgs, .provideArgsDefault),
   (.invalidArgs, .invalidArgsDefault),
   (.confirmArgs, .argsConfirmationDefault),
   (.confirmOutput, .outputConfirmationDefault)]

/-- `BaseToolInterruptNode.__init__` (line 376):
`self.tool_interupt_handlers.update(custom_tool_interupt_handlers)`.
The attribute lookup resolves to the *class-level* dictionary (no
instance attribute is ever assigned), and `update` mutates it in place;
the single shared dict is modelled as threaded state, taking the table
as it is before the construction and returning it as every instance sees
it afterwards. -/
def interruptNodeInit (classTable : HandlerTable) (custom : HandlerTable) :
    HandlerTable :=
  tableUpdate classTable custom

/-- The Python name of an interrupt kind (the `KeyError` payload for an
unknown kind). -/
def interruptTypeName : InterruptType → String
  | .provideArgs => "PROVIDE_ARGS"
  | .invalidArgs => "INVALID_ARGS"
  | .confirmArgs => "CONFIRM_ARGS"
  | .confirmOutput => "CONFIRM_OUTPUT"

/-- The human response and language-model interpretations available to a
handler invocation (the externally supplied inputs of one interrupt
round). -/
structure InterruptEnv where
  response : String
  interp : Value
  classifyInterp : Value
  updateInterp : Value

/-- Dispatch a strategy object.  Custom strategies are abstract
(`customImpl`). -/
def runHandlerTag
    (customImpl : ℕ → InterruptEnv → ToolState → SuspendCtx →
      Except PyErr (Directive × ToolState))
    (tag : HandlerTag) (env : InterruptEnv) (toolSt : ToolState)
    (ctx : SuspendCtx) : Except PyErr (Directive × ToolState) :=
  match tag with
  | .provideArgsDefault => provideArgsHandle toolSt ctx env.response env.interp
  | .invalidArgsDefault => invalidArgsHandle toolSt ctx env.response env.interp
  | .argsConfirmationDefault =>
      argsConfirmationHandle toolSt ctx env.response env.interp
  | .outputConfirmationDefault =>
      outputConfirmationHandle toolSt ctx env.response env.classifyInterp
        env.updateInterp
  | .custom n => customImpl n env toolSt ctx

/-- Output of a graph node: a `Command(goto=..., update=...)` or a plain
state update. -/
structure StateUpdateOut where
  messages : List MsgUpdate
  nodeParams : Option (List (String × NPVal))

inductive NodeOut where
  | command (goto : Goto) (upd : StateUpdateOut)
  | plain (upd : StateUpdateOut)

/-- `tool_interrupt_node_template` (lines 381-396): read the Suspend
Context from `node_params` under this node's name, look the tool up in
the registry, dispatch the strategy registered for the stashed interrupt
kind, and wrap the resulting directive in a `Command`.  Each of the three
lookups is plain dict indexing: a miss raises `KeyError`, which no
`except` intercepts — there is no retry and no interrupt raised.  The
registry is modelled by the tools' mutable states (`tstates`), the only
part of the tool objects the strategies touch. -/
def toolInterruptNode (interruptName : String) (table : HandlerTable)
    (customImpl : ℕ → InterruptEnv → ToolState → SuspendCtx →
      Except PyErr (Directive × ToolState))
    (env : InterruptEnv) (tstates : List (String × ToolState))
    (state : GraphState) :
    Except PyErr (NodeOut × List (String × ToolState)) :=
  match lookupStr state.nodeParams interruptName with
  | Option.none => .error (.keyError interruptName)
  | some (.chatbotUpdate _) => .error (.keyError "tool_interrupt")
  | some (.suspend ctx) =>
      match lookupStr tstates ctx.toolInterrupt.tool with
      | Option.none => .error (.keyError ctx.toolInterrupt.tool)
      | some toolSt =>
          match lookupTable table ctx.toolInterrupt.itype with
          | Option.none =>
              .error (.keyError (interruptTypeName ctx.toolInterrupt.itype))
          | some tag =>
              match runHandlerTag customImpl tag env toolSt ctx with
              | .error e => .error e
              | .ok (d, toolSt') =>
                  .ok (.command d.goto
                        { messages := d.messages, nodeParams := d.nodeParams },
                       setStr tstates ctx.toolInterrupt.tool toolSt')

/-! ## `nodes/base/base_tool_handler_node.py` — tool handler node -/

/-- `BaseTool.invoke` through the pydantic schema: builds the full
`tool_args` dictionary in schema order, taking provided values, schema
defaults for absent optional fields, and raising a validation error for
an absent required field.  (Pydantic type coercion is not modelled; where
a claim needs the invoke-level typing guarantee it appears as an explicit
hypothesis.) -/
def buildToolArgsGo (sd : String → Value) :
    List (String × Bool) → Args → Except PyErr Args
  | [], _ => .ok []
  | (k, req) :: rest, given =>
      match lookupStr given k with
      | some v => (buildToolArgsGo sd rest given).map ((k, v) :: ·)
      | Option.none =>
          if req then .error (.valueError ("validation error: field required: " ++ k))
          else (buildToolArgsGo sd rest given).map ((k, sd k) :: ·)

def pyInvoke (t : ToolConfig) (given : Args) (st : ToolState) :
    RunResult × ToolState :=
  match buildToolArgsGo t.schemaDefault t.schema given with
  | .error e => (.error e, st)
  | .ok args => runTool t args st

/-- `tool_handler_template` (lines 55-82): take the last message and its
last tool call; look the tool up (`self.tools[tool_call['name']]` is
*inside* the `try`, but `except BaseToolInterrupt` does not catch a
`KeyError`, so an unknown tool name propagates); invoke it.  On a
`BaseToolInterrupt`, stash the Suspend Context under the interrupt node's
name (replacing the `node_params` channel) and route there; on a normal
return, emit the tool-result message plus the sub-flows' shared
`additional_ouput_state` (which clears `node_params`); on any other
exception, propagate. -/
def toolHandlerNode (handlerName interruptName : String)
    (tools : List (String × ToolConfig)) (tstates : List (String × ToolState))
    (state : GraphState) :
    Except PyErr (NodeOut × List (String × ToolState)) :=
  match state.messages.getLast? with
  | Option.none => .error .indexError
  | some (.toolResult _ _ _) => .error (.attributeError "tool_calls")
  | some (.system _) => .error (.attributeError "tool_calls")
  | some (.ai tm) =>
      match tm.toolCalls.getLast? with
      | Option.none => .error .indexError
      | some call =>
          match lookupStr tools call.name with
          | Option.none => .error (.keyError call.name)
          | some t =>
              let st := (lookupStr tstates call.name).getD t.initState
              match pyInvoke t call.args st with
              | (.interrupt i, st') =>
                  .ok (.command (.node interruptName)
                        { messages := []
                          nodeParams :=
                            some [(interruptName,
                              .suspend { toolMessage := tm
                                         toolInterrupt := i
                                         toolHandlerNode := handlerName })] },
                       setStr tstates call.name st')
              | (.error e, _) => .error e
              | (.ok out, st') =>
                  .ok (.plain { messages := [.toolResult call.name call.id out]
                                nodeParams := some [] },
                       setStr tstates call.name st')

/-! ## Applying state updates (the `add_messages` channel and the plain
`node_params` channel) -/

def msgId : Msg → Option String
  | .ai tm => some tm.id
  | _ => Option.none

/-- One `add_messages` element: `RemoveMessage` deletes by id, a message
with an existing id replaces it in place, otherwise the message is
appended. -/
def applyOneMsgUpdate (msgs : List Msg) : MsgUpdate → List Msg
  | .removeMessage i => msgs.filter (fun m => !(msgId m == some i))
  | .aiMsg tm =>
      if msgs.any (fun m => msgId m == some tm.id) then
        msgs.map (fun m => if msgId m == some tm.id then .ai tm else m)
      else msgs ++ [.ai tm]
  | .system c => msgs ++ [.system c]
  | .toolResult n cid out => msgs ++ [.toolResult n cid out]

def applyMessagesUpdate (msgs : List Msg) (upds : List MsgUpdate) : List Msg :=
  upds.foldl applyOneMsgUpdate msgs

/-- Apply a node's state update: `messages` through `add_messages`;
`node_params` is a plain `dict` channel, so when present in the update it
*replaces* the stored value. -/
def applyStateUpdate (s : GraphState) (u : StateUpdateOut) : GraphState :=
  { messages := applyMessagesUpdate s.messages u.messages
    nodeParams :=
      match u.nodeParams with
      | some np => np
      | Option.none => s.nodeParams }

/-- Number of `SystemMessage`s in an update. -/
def countSystemUpdates (upds : List MsgUpdate) : ℕ :=
  (upds.filter (fun u => match u with | .system _ => true | _ => false)).length

/-! ## Concrete fixtures used by witnesses and counterexamples -/

/-- A fixed wall clock: 2025-07-15, mid-day. -/
def testClock : Clock :=
  { today := ⟨2025, 7, 15⟩, iso := "2025-07-15T10-00-00" }

/-- Concrete oracles: the geocoder answers a unit bounding box, the code
generator a fixed snippet, and the store knows exactly the notebook
`nb.ipynb`. -/
def testOracles : Oracles :=
  { clock := testClock
    geo := fun _ => .list [.num ⟨12, 0⟩, .num ⟨52, 0⟩, .num ⟨14, 0⟩, .num ⟨53, 0⟩]
    genCode := fun _ => "import matplotlib"
    dbiHasNotebook := fun v =>
      match v with
      | .str s => s = "nb.ipynb"
      | _ => false }

/-- A fully specified, valid argument set for the historic tool. -/
def histArgsOk : Args :=
  [("historic_dataset", .str "reanalysis-era5-land"),
   ("historic_variables", .list [.str "temperature"]),
   ("area", .list [.num ⟨12, 0⟩, .num ⟨52, 0⟩, .num ⟨14, 0⟩, .num ⟨53, 0⟩]),
   ("start_time", .str "2025-05-01"),
   ("end_time", .str "2025-06-01"),
   ("zarr_output", .str "o.zarr"),
   ("jupyter_notebook", .str "n.ipynb")]

/-- A fully specified, valid argument set for the SPI tool. -/
def spiArgsOk : Args :=
  [("area", .list [.num ⟨12, 0⟩, .num ⟨52, 0⟩, .num ⟨14, 0⟩, .num ⟨53, 0⟩]),
   ("reference_period", .tuple [.num ⟨1981, 0⟩, .num ⟨2010, 0⟩]),
   ("init_time", .str "2025-05-01"),
   ("lead_time", .str "2025-06-01"),
   ("jupyter_notebook", .str "n.ipynb")]

/-- The code editor call and message used in the CONFIRM_OUTPUT
scenarios. -/
def ceArgs : Args :=
  [("source", .str "nb.ipynb"), ("code_request", .str "plot the data")]

def ceTool : ToolConfig := codeEditorTool testOracles

def ceMsg : ToolMsg :=
  { id := "m1"
    toolCalls := [{ id := "c1", name := "code_editor_tool", args := ceArgs }] }

def ceCtx : SuspendCtx :=
  { toolMessage := ceMsg
    toolInterrupt :=
      { tool := "code_editor_tool"
        itype := .confirmOutput
        reason := "A user confirmation of the ouput is required."
        data := .output ceArgs Option.none }
    toolHandlerNode := "code_editor_tool_handler" }

/-- A `BaseAgentTool` instance exercising the `check_validation_rules`
recording loop with two rules registered on one argument, both rejecting
(the shape the multi-rule `end_time`/`lead_time` arguments of the CDS
tools take). -/
def twoRuleTool : ToolConfig :=
  { name := "demo_tool"
    schema := [("x", true)]
    validationRules := fun k =>
      if k = "x" then
        [fun _ => .ok (some "reason-one"), fun _ => .ok (some "reason-two")]
      else []
    inferenceRules := fun _ => Option.none
    execute := fun _ st => (.ok [], st)
    initialExecutionConfirmed := false
    initialOutputConfirmed := false }

/-! ## Helper lemmas -/

theorem getArg_setArg_same (args : Args) (k : String) (v : Value) :
    getArg (setArg args k v) k = v := by
  induction args with
  | nil => simp [getArg, setArg]
  | cons p rest ih =>
      by_cases h : p.1 = k
      · simp [getArg, setArg, h]
      · simp only [setArg, if_neg h]
        simpa [getArg, List.find?, h] using ih

theorem getArg_setArg_other (args : Args) (k k' : String) (v : Value)
    (h : k ≠ k') : getArg (setArg args k' v) k = getArg args k := by
  induction args with
  | nil => simp [getArg, setArg, Ne.symm h]
  | cons p rest ih =>
      by_cases hp : p.1 = k'
      · simp [getArg, setArg, hp, Ne.symm h]
      · simp only [setArg, if_neg hp]
        by_cases hk : p.1 = k
        · simp [getArg, List.find?, hk]
        · simpa [getArg, List.find?, hk] using ih

theorem argKeys_setArg_mem (args : Args) (k : String) (v : Value)
    (h : k ∈ argKeys args) : argKeys (setArg args k v) = argKeys args := by
  induction args with
  | nil => simp [argKeys] at h
  | cons p rest ih =>
      obtain ⟨k', v'⟩ := p
      by_cases hp : k' = k
      · simp [argKeys, setArg, hp]
      · simp only [argKeys, List.map_cons, List.mem_cons] at h
        rcases h with h | h
        · exact absurd h.symm hp
        · have := ih h
          simp only [argKeys, List.map_cons] at this ⊢
          simp [setArg, hp, this]

theorem setArg_getArg_self (args : Args) (k : String)
    (h : k ∈ argKeys args) : setArg args k (getArg args k) = args := by
  induction args with
  | nil => simp [argKeys] at h
  | cons p rest ih =>
      obtain ⟨k', v'⟩ := p
      by_cases hp : k' = k
      · subst hp
        simp [setArg, getArg, List.find?]
      · simp only [argKeys, List.map_cons, List.mem_cons] at h
        rcases h with h | h
        · exact absurd h.symm hp
        · have hga : getArg ((k', v') :: rest) k = getArg rest k := by
            simp [getArg, List.find?, hp]
          rw [hga]
          simp [setArg, hp, ih h]

theorem lookupTable_setTable_same (t : HandlerTable) (k : InterruptType)
    (v : HandlerTag) : lookupTable (setTable t k v) k = some v := by
  induction t with
  | nil => simp [lookupTable, setTable]
  | cons p rest ih =>
      obtain ⟨k', v'⟩ := p
      by_cases hp : k' = k
      · simp [lookupTable, setTable, hp]
      · simp [lookupTable, setTable, hp, List.find?] at ih ⊢
        exact ih

theorem lookupTable_setTable_other (t : HandlerTable) (k k' : InterruptType)
    (v : HandlerTag) (h : k ≠ k') :
    lookupTable (setTable t k' v) k = lookupTable t k := by
  induction t with
  | nil => simp [lookupTable, setTable, Ne.symm h]
  | cons p rest ih =>
      obtain ⟨k1, v1⟩ := p
      by_cases hp : k1 = k'
      · simp [lookupTable, setTable, hp, Ne.symm h, List.find?]
      · by_cases hk : k1 = k
        · subst hk
          simp [lookupTable, setTable, hp, List.find?]
        · simp [lookupTable, setTable, hp, hk, List.find?] at ih ⊢
          exact ih

theorem lookupTable_tableUpdate_not_mem (t : HandlerTable)
    (c : HandlerTable) (k : InterruptType)
    (h : k ∉ c.map Prod.fst) :
    lookupTable (tableUpdate t c) k = lookupTable t k := by
  induction c generalizing t with
  | nil => simp [tableUpdate]
  | cons p rest ih =>
      obtain ⟨k1, v1⟩ := p
      simp only [List.map_cons, List.mem_cons] at h
      push_neg at h
      have hstep : tableUpdate t ((k1, v1) :: rest) = tableUpdate (setTable t k1 v1) rest := by
        simp [tableUpdate]
      rw [hstep, ih _ h.2, lookupTable_setTable_other _ _ _ _ h.1]

theorem lookupTable_tableUpdate_mem (t : HandlerTable) (c : HandlerTable)
    (k : InterruptType) (tag : HandlerTag)
    (hnd : (c.map Prod.fst).Nodup)
    (hk : lookupTable c k = some tag) :
    lookupTable (tableUpdate t c) k = some tag := by
  induction c generalizing t with
  | nil => simp [lookupTable] at hk
  | cons p rest ih =>
      obtain ⟨k1, v1⟩ := p
      have hstep : tableUpdate t ((k1, v1) :: rest) = tableUpdate (setTable t k1 v1) rest := by
        simp [tableUpdate]
      simp only [List.map_cons, List.nodup_cons] at hnd
      by_cases hp : k1 = k
      · subst hp
        have hk' : tag = v1 := by
          simp [lookupTable, List.find?] at hk
          exact hk.symm
        subst hk'
        rw [hstep, lookupTable_tableUpdate_not_mem _ _ _ hnd.1,
          lookupTable_setTable_same]
      · have hk' : lookupTable rest k = some tag := by
          simpa [lookupTable, List.find?, hp] using hk
        rw [hstep]
        exact ih _ hnd.2 hk'

/-- The default strategy registered for a kind in the pristine class
table. -/
def defaultTagFor : InterruptType → HandlerTag
  | .provideArgs => .provideArgsDefault
  | .invalidArgs => .invalidArgsDefault
  | .confirmArgs => .argsConfirmationDefault
  | .confirmOutput => .outputConfirmationDefault

theorem lookupTable_base (k : InterruptType) :
    lookupTable baseToolInteruptHandlers k = some (defaultTagFor k) := by
  cases k <;> rfl

/-! ## Claim theorems -/

/-- C10: the interrupt-kind-to-strategy dispatch table
`tool_interupt_handlers` is one class-level dictionary shared by every
`BaseToolInterruptNode`; constructing node A with
`custom_tool_interupt_handlers` mutates it in place
(`self.tool_interupt_handlers.update(...)`), so when node B is then
constructed (even with no customs of its own), B dispatches A's custom
strategy for every customised kind — and whenever that strategy differs
from the default, B's dispatch for that kind has changed: per-sub-flow
handler overrides are not isolated. -/
theorem custom_handlers_leak_across_nodes
    (custom : HandlerTable) (k : InterruptType) (tag : HandlerTag)
    (hnd : (custom.map Prod.fst).Nodup)
    (hk : lookupTable custom k = some tag) :
    lookupTable
      (interruptNodeInit (interruptNodeInit baseToolInteruptHandlers custom) [])
      k = some tag ∧
    (tag ≠ defaultTagFor k →
      lookupTable
        (interruptNodeInit (interruptNodeInit baseToolInteruptHandlers custom) [])
        k ≠ lookupTable baseToolInteruptHandlers k) := by
  have hB : interruptNodeInit (interruptNodeInit baseToolInteruptHandlers custom) []
      = interruptNodeInit baseToolInteruptHandlers custom := rfl
  have hA : lookupTable (interruptNodeInit baseToolInteruptHandlers custom) k = some tag :=
    lookupTable_tableUpdate_mem _ _ _ _ hnd hk
  refine ⟨by rw [hB]; exact hA, fun hne => ?_⟩
  rw [hB, hA, lookupTable_base]
  simpa using hne

/-- Witness for C10: registering a custom output-confirmation strategy
(as the `code_editor` sub-flow does) when constructing one interrupt node
changes what a subsequently constructed node dispatches for
CONFIRM_OUTPUT. -/
theorem custom_handlers_leak_across_nodes_witness :
    ([(InterruptType.confirmOutput, HandlerTag.custom 0)].map Prod.fst).Nodup ∧
    lookupTable [(InterruptType.confirmOutput, HandlerTag.custom 0)] .confirmOutput
      = some (HandlerTag.custom 0) ∧
    lookupTable
      (interruptNodeInit
        (interruptNodeInit baseToolInteruptHandlers
          [(InterruptType.confirmOutput, HandlerTag.custom 0)]) [])
      .confirmOutput = some (HandlerTag.custom 0) ∧
    lookupTable
      (interruptNodeInit
        (interruptNodeInit baseToolInteruptHandlers
          [(InterruptType.confirmOutput, HandlerTag.custom 0)]) [])
      .confirmOutput ≠ lookupTable baseToolInteruptHandlers .confirmOutput := by
  have h := custom_handlers_leak_across_nodes
    [(InterruptType.confirmOutput, HandlerTag.custom 0)] .confirmOutput
    (HandlerTag.custom 0) (by simp) rfl
  exact ⟨by simp, rfl, h.1, h.2 (by simp [defaultTagFor])⟩

/-- C8: an unknown tool name makes the tool handler node fail with the
uncaught `KeyError` of the registry lookup (the `except` clause catches
only `BaseToolInterrupt`), and an unknown interrupt kind makes the
interrupt node fail with the uncaught `KeyError` of the strategy-table
lookup: neither path raises an Interrupt Signal or retries — the failure
propagates out of the node and kills the turn. -/
theorem unknown_tool_or_kind_fatal
    (handlerName interruptName : String)
    (tools : List (String × ToolConfig)) (tstates : List (String × ToolState))
    (pre : List Msg) (tm : ToolMsg) (call : ToolCall)
    (np : List (String × NPVal))
    (hlast : tm.toolCalls.getLast? = some call)
    (hname : lookupStr tools call.name = Option.none)
    (table : HandlerTable)
    (customImpl : ℕ → InterruptEnv → ToolState → SuspendCtx →
      Except PyErr (Directive × ToolState))
    (env : InterruptEnv) (tstates' : List (String × ToolState))
    (np' : List (String × NPVal)) (msgs' : List Msg) (ctx : SuspendCtx)
    (hctx : lookupStr np' interruptName = some (.suspend ctx))
    (htool : lookupStr tstates' ctx.toolInterrupt.tool ≠ Option.none)
    (hkind : lookupTable table ctx.toolInterrupt.itype = Option.none) :
    toolHandlerNode handlerName interruptName tools tstates
      ⟨pre ++ [.ai tm], np⟩ = .error (.keyError call.name) ∧
    toolInterruptNode interruptName table customImpl env tstates'
      ⟨msgs', np'⟩ = .error (.keyError (interruptTypeName ctx.toolInterrupt.itype)) := by
  constructor
  · have hl : (pre ++ [Msg.ai tm]).getLast? = some (.ai tm) := by
      simp [List.getLast?_append]
    simp [toolHandlerNode, hl, hlast, hname]
  · rcases h : lookupStr tstates' ctx.toolInterrupt.tool with _ | st
    · exact absurd h htool
    · simp [toolInterruptNode, hctx, h, hkind]

/-- Witness for C8 at a concrete unknown tool name and a concrete
strategy table missing the CONFIRM_OUTPUT kind. -/
theorem unknown_tool_or_kind_fatal_witness :
    ({ id := "m9", toolCalls := [{ id := "c9", name := "unknown_tool", args := [] }] }
        : ToolMsg).toolCalls.getLast? =
      some { id := "c9", name := "unknown_tool", args := [] } ∧
    lookupStr ([("code_editor_tool", ceTool)]) "unknown_tool" = Option.none ∧
    lookupStr [("ctx", NPVal.suspend ceCtx)] "ctx" = some (.suspend ceCtx) ∧
    lookupStr [("code_editor_tool", ceTool.initState)] ceCtx.toolInterrupt.tool
      ≠ Option.none ∧
    lookupTable [(InterruptType.provideArgs, HandlerTag.provideArgsDefault)]
      ceCtx.toolInterrupt.itype = Option.none ∧
    toolHandlerNode "h" "i" [("code_editor_tool", ceTool)] []
      ⟨[] ++ [.ai { id := "m9", toolCalls := [{ id := "c9", name := "unknown_tool", args := [] }] }], []⟩
      = .error (.keyError "unknown_tool") ∧
    toolInterruptNode "ctx" [(InterruptType.provideArgs, HandlerTag.provideArgsDefault)]
      (fun _ _ st c => .ok (abortDirective c.toolMessage "x", st))
      ⟨"r", .pyNone, .pyNone, .pyNone⟩
      [("code_editor_tool", ceTool.initState)] ⟨[], [("ctx", NPVal.suspend ceCtx)]⟩
      = .error (.keyError "CONFIRM_OUTPUT") := by
  have h := unknown_tool_or_kind_fatal "h" "ctx"
    [("code_editor_tool", ceTool)] []
    [] { id := "m9", toolCalls := [{ id := "c9", name := "unknown_tool", args := [] }] }
    { id := "c9", name := "unknown_tool", args := [] } []
    rfl rfl
    [(InterruptType.provideArgs, HandlerTag.provideArgsDefault)]
    (fun _ _ st c => .ok (abortDirective c.toolMessage "x", st))
    ⟨"r", .pyNone, .pyNone, .pyNone⟩
    [("code_editor_tool", ceTool.initState)]
    [("ctx", NPVal.suspend ceCtx)] [] ceCtx
    rfl (by simp [ceCtx, lookupStr]) rfl
  exact ⟨rfl, rfl, rfl, by simp [ceCtx, lookupStr], rfl, h.1, h.2⟩

/-- C3: `check_validation_rules` evaluates *every* rule of an argument
(the trailing `continue` in the recording loop is a no-op where a `break`
was evidently intended) and each non-null return overwrites
`invalid_args[arg]`, so with two rules both rejecting, the reason carried
by the INVALID_ARGS interrupt is the *last* rule's value, not the first
one's. -/
theorem invalid_reason_is_last_not_first :
    checkValidationRules twoRuleTool [("x", .num ⟨1, 0⟩)]
      = .ok [("x", "reason-two")] ∧
    (runTool twoRuleTool [("x", .num ⟨1, 0⟩)] twoRuleTool.initState).1
      = .interrupt
          { tool := "demo_tool"
            itype := .invalidArgs
            reason := "Invalid arguments: [x]."
            data := .invalid [("x", "reason-two")] } ∧
    "reason-two" ≠ "reason-one" := by
  exact ⟨rfl, rfl, by decide⟩

/-- C2: whenever at least one required argument is missing, `run` raises
PROVIDE_ARGS — even if some argument would also fail validation — because
`_run` performs its phases in the fixed order required-check, validation,
inference, confirm-args, execute, confirm-output. -/
theorem provide_args_precedes_invalid_args
    (t : ToolConfig) (args : Args) (st : ToolState)
    (hmiss : checkRequiredArgs t args ≠ [])
    (hinv : ∃ k r, r ∈ t.validationRules k ∧
      ∃ reason, r args = .ok (some reason)) :
    (runTool t args st).1 = .interrupt
      { tool := t.name
        itype := .provideArgs
        reason := "Missing required arguments: " ++
          reprNameList (checkRequiredArgs t args) ++ "."
        data := .provide (checkRequiredArgs t args) } := by
  simp only [runTool, if_pos hmiss]

/-- The argument set of the C2 witness: `historic_dataset` missing and a
five-element `area` bounding box. -/
def c2Args : Args :=
  [("historic_dataset", .pyNone),
   ("historic_variables", .list [.str "temperature"]),
   ("area", .list [.num ⟨1, 0⟩, .num ⟨2, 0⟩, .num ⟨3, 0⟩, .num ⟨4, 0⟩, .num ⟨5, 0⟩]),
   ("start_time", .pyNone), ("end_time", .pyNone),
   ("zarr_output", .pyNone), ("jupyter_notebook", .pyNone)]

/-- Witness for C2: the historic tool with `historic_dataset` missing and
an `area` list of five coordinates (which the area validation rule
rejects) raises PROVIDE_ARGS, not INVALID_ARGS. -/
theorem provide_args_precedes_invalid_args_witness :
    checkRequiredArgs (cdsHistoricTool testOracles) c2Args ≠ [] ∧
    (∃ k r, r ∈ (cdsHistoricTool testOracles).validationRules k ∧
      ∃ reason, r c2Args = .ok (some reason)) ∧
    (runTool (cdsHistoricTool testOracles) c2Args
      (cdsHistoricTool testOracles).initState).1 = .interrupt
      { tool := "cds_historic_notebook_tool"
        itype := .provideArgs
        reason := "Missing required arguments: [historic_dataset]."
        data := .provide ["historic_dataset"] } := by
  have hinv : ∃ k r, r ∈ (cdsHistoricTool testOracles).validationRules k ∧
      ∃ reason, r c2Args = .ok (some reason) :=
    ⟨"area", bboxAreaRule,
      by simp [cdsHistoricTool, cdsHistoricValidationRules], _, rfl⟩
  refine ⟨by decide, hinv, ?_⟩
  exact provide_args_precedes_invalid_args _ _ _ (by decide) hinv

/-- The code editor's first-pass output (generated code, not yet
applied). -/
def ceOut1 : Output :=
  [("notebook", .str "nb.ipynb"), ("generated_code", .str "import matplotlib")]

/-- The CONFIRM_OUTPUT interrupt the code editor raises on this call. -/
def ceInt : ToolInterrupt :=
  { tool := "code_editor_tool"
    itype := .confirmOutput
    reason := "A user confirmation of the ouput is required."
    data := .output ceArgs (some ceOut1) }

/-- Tool state after the code editor's first run (suspended on
CONFIRM_OUTPUT): code generated and stored, no durable write yet. -/
def ceSt1 : ToolState :=
  { executionConfirmed := true
    outputConfirmed := false
    output := some ceOut1
    effects := [] }

/-- Tool state after the confirmed re-entry: the durable save has
happened once and CONFIRM_OUTPUT is raised again. -/
def ceSt3 : ToolState :=
  { executionConfirmed := true
    outputConfirmed := false
    output := some ceOut1
    effects := [.saveNotebook "nb.ipynb"] }

/-- C1: after CONFIRM_OUTPUT is raised and the human confirms, the
re-entry through the tool handler re-invokes `run` from the top, and
`_run` line 140 calls `self._execute(...)` unconditionally — there is no
short-circuit returning the stored output.  On the concrete
`CodeEditorTool` cycle: the confirmed re-entry runs the execution body
again (performing the durable `DBI.save_notebook` write), does not return
the stored output but raises CONFIRM_OUTPUT again, and a second
confirmation performs the durable write a second time. -/
theorem confirm_output_confirm_reexecutes_body :
    runTool ceTool ceArgs ceTool.initState = (.interrupt ceInt, ceSt1) ∧
    outputConfirmationHandle ceSt1 ceCtx "yes" (.bool true) .pyNone =
      .ok ({ goto := .node "code_editor_tool_handler"
             messages := [.aiMsg ceMsg]
             nodeParams := Option.none },
           { ceSt1 with outputConfirmed := true }) ∧
    runTool ceTool ceArgs { ceSt1 with outputConfirmed := true } =
      (.interrupt ceInt, ceSt3) ∧
    ceSt3.effects = [.saveNotebook "nb.ipynb"] ∧
    (runTool ceTool ceArgs { ceSt3 with outputConfirmed := true }).2.effects =
      [.saveNotebook "nb.ipynb", .saveNotebook "nb.ipynb"] :=
  ⟨rfl, rfl, rfl, rfl, rfl⟩

/-- C6 (counterexample): aborting at a CONFIRM_OUTPUT interrupt of the
code editor takes the abort branch but leaves the tool state completely
untouched — in particular `execution_confirmed` is still `true`
afterwards, contradicting the claim that no confirmation flag is left
`true`. -/
theorem abort_leaves_execution_confirmed_true :
    runTool ceTool ceArgs ceTool.initState = (.interrupt ceInt, ceSt1) ∧
    outputConfirmationHandle ceSt1 ceCtx "please stop" .pyNone .pyNone =
      .ok (abortDirective ceMsg "please stop", ceSt1) ∧
    ceSt1.executionConfirmed = true :=
  ⟨rfl, rfl, rfl⟩

/-- C6 (amended): for every interrupt kind, an abort-sentinel response
produces the abort directive: the pending tool message is removed from
conversation state, the `node_params` channel is replaced so the Suspend
Context is cleared, exactly one system-visible message is appended, and
control routes back to the parent flow (`END`) — but the handler leaves
the tool's confirmation flags exactly as they were (it does not clear
them), so a flag that was `true` when the interrupt fired stays `true`. -/
theorem abort_cleans_call_and_context
    (toolSt : ToolState) (ctx : SuspendCtx) (response : String)
    (s : GraphState) (n : String) (u : Value)
    (hn : n ≠ "chatbot_update_messages") :
    provideArgsHandle toolSt ctx response .pyNone =
      .ok (abortDirective ctx.toolMessage response, toolSt) ∧
    invalidArgsHandle toolSt ctx response .pyNone =
      .ok (abortDirective ctx.toolMessage response, toolSt) ∧
    argsConfirmationHandle toolSt ctx response .pyNone =
      .ok (abortDirective ctx.toolMessage response, toolSt) ∧
    outputConfirmationHandle toolSt ctx response .pyNone u =
      .ok (abortDirective ctx.toolMessage response, toolSt) ∧
    (abortDirective ctx.toolMessage response).goto = .endGraph ∧
    countSystemUpdates (abortDirective ctx.toolMessage response).messages = 1 ∧
    (∀ m ∈ (applyStateUpdate s
        ⟨(abortDirective ctx.toolMessage response).messages,
         (abortDirective ctx.toolMessage response).nodeParams⟩).messages,
      msgId m ≠ some ctx.toolMessage.id) ∧
    lookupStr (applyStateUpdate s
        ⟨(abortDirective ctx.toolMessage response).messages,
         (abortDirective ctx.toolMessage response).nodeParams⟩).nodeParams n
      = Option.none := by
  refine ⟨rfl, rfl, rfl, rfl, rfl, rfl, ?_, ?_⟩
  · intro m hm
    simp only [applyStateUpdate, applyMessagesUpdate, abortDirective,
      List.foldl, applyOneMsgUpdate] at hm
    rcases List.mem_append.mp hm with h | h
    · have hpred := (List.mem_filter.mp h).2
      simp only [Bool.not_eq_true'] at hpred
      simpa using hpred
    · simp only [List.mem_singleton] at h
      subst h
      simp [msgId]
  · simp [applyStateUpdate, abortDirective, lookupStr, List.find?, Ne.symm hn]

/-- Witness for C6 (amended) at the concrete code-editor CONFIRM_OUTPUT
abort, with the `cds_ingestor` interrupt node's `node_params` key. -/
theorem abort_cleans_call_and_context_witness :
    ("code_editor_tool_interrupt" : String) ≠ "chatbot_update_messages" ∧
    (provideArgsHandle ceSt1 ceCtx "stop" .pyNone =
      .ok (abortDirective ceMsg "stop", ceSt1) ∧
    invalidArgsHandle ceSt1 ceCtx "stop" .pyNone =
      .ok (abortDirective ceMsg "stop", ceSt1) ∧
    argsConfirmationHandle ceSt1 ceCtx "stop" .pyNone =
      .ok (abortDirective ceMsg "stop", ceSt1) ∧
    outputConfirmationHandle ceSt1 ceCtx "stop" .pyNone .pyNone =
      .ok (abortDirective ceMsg "stop", ceSt1) ∧
    (abortDirective ceMsg "stop").goto = .endGraph ∧
    countSystemUpdates (abortDirective ceMsg "stop").messages = 1 ∧
    (∀ m ∈ (applyStateUpdate
        ⟨[.ai ceMsg], [("code_editor_tool_interrupt", .suspend ceCtx)]⟩
        ⟨(abortDirective ceMsg "stop").messages,
         (abortDirective ceMsg "stop").nodeParams⟩).messages,
      msgId m ≠ some ceMsg.id) ∧
    lookupStr (applyStateUpdate
        ⟨[.ai ceMsg], [("code_editor_tool_interrupt", .suspend ceCtx)]⟩
        ⟨(abortDirective ceMsg "stop").messages,
         (abortDirective ceMsg "stop").nodeParams⟩).nodeParams
      "code_editor_tool_interrupt" = Option.none) := by
  refine ⟨by decide, ?_⟩
  exact abort_cleans_call_and_context ceSt1 ceCtx "stop"
    ⟨[.ai ceMsg], [("code_editor_tool_interrupt", .suspend ceCtx)]⟩
    "code_editor_tool_interrupt" .pyNone (by decide)

/-- C7 (counterexample): a language-model interpretation that cannot be
parsed comes back from `ask_llm` as the *raw content string*
(`utils.ask_llm` line 124 falls through `except: pass` to
`return llm_out.content`), and the CONFIRM_OUTPUT handler's
`if/elif/else` then takes the *abort* branch for it — the turn is
aborted, not re-asked, even though the human never asked to exit. -/
theorem unparsable_interpretation_aborts :
    askLlmEvalResult "I am not sure what you mean" Option.none =
      .str "I am not sure what you mean" ∧
    outputConfirmationHandle ceSt1 ceCtx "maybe"
      (askLlmEvalResult "I am not sure what you mean" Option.none) .pyNone =
      .ok (abortDirective ceMsg "maybe", ceSt1) :=
  ⟨rfl, rfl⟩

theorem provideArgsHandle_nonNone (toolSt : ToolState) (ctx : SuspendCtx)
    (response : String) (w : Value) (hw : w ≠ Value.pyNone) :
    (∃ e, provideArgsHandle toolSt ctx response w = .error e) ∨
    (∃ d st2, provideArgsHandle toolSt ctx response w = .ok (d, st2) ∧
      d.goto = .node ctx.toolHandlerNode) := by
  have key : provideArgsHandle toolSt ctx response w =
      (match updateLastCallArgs ctx.toolMessage w with
       | .error e => .error e
       | .ok tm2 =>
           .ok ({ goto := .node ctx.toolHandlerNode,
                  messages := [.aiMsg tm2],
                  nodeParams := Option.none }, toolSt)) := by
    rcases w with _ | s | a | b | vs | vs | kvs | d0 | w0 | w0
    · exact absurd rfl hw
    all_goals rfl
  rcases hupd : updateLastCallArgs ctx.toolMessage w with e | tm2
  · exact Or.inl ⟨e, by rw [key, hupd]⟩
  · exact Or.inr ⟨_, _, by rw [key, hupd], rfl⟩

theorem invalidArgsHandle_nonNone (toolSt : ToolState) (ctx : SuspendCtx)
    (response : String) (w : Value) (hw : w ≠ Value.pyNone) :
    (∃ e, invalidArgsHandle toolSt ctx response w = .error e) ∨
    (∃ d st2, invalidArgsHandle toolSt ctx response w = .ok (d, st2) ∧
      d.goto = .node ctx.toolHandlerNode) := by
  have key : invalidArgsHandle toolSt ctx response w =
      (match updateLastCallArgs ctx.toolMessage w with
       | .error e => .error e
       | .ok tm2 =>
           .ok ({ goto := .node ctx.toolHandlerNode,
                  messages := [.aiMsg tm2],
                  nodeParams := Option.none }, toolSt)) := by
    rcases w with _ | s | a | b | vs | vs | kvs | d0 | w0 | w0
    · exact absurd rfl hw
    all_goals rfl
  rcases hupd : updateLastCallArgs ctx.toolMessage w with e | tm2
  · exact Or.inl ⟨e, by rw [key, hupd]⟩
  · exact Or.inr ⟨_, _, by rw [key, hupd], rfl⟩

theorem argsConfirmationHandle_nonNone (toolSt : ToolState) (ctx : SuspendCtx)
    (response : String) (w : Value) (hw : w ≠ Value.pyNone) :
    (∃ e, argsConfirmationHandle toolSt ctx response w = .error e) ∨
    (∃ d st2, argsConfirmationHandle toolSt ctx response w = .ok (d, st2) ∧
      d.goto = .node ctx.toolHandlerNode) := by
  have key : argsConfirmationHandle toolSt ctx response w =
      (match updateLastCallArgs ctx.toolMessage w with
       | .error e => .error e
       | .ok tm2 =>
           .ok ({ goto := .node ctx.toolHandlerNode,
                  messages := [.aiMsg tm2],
                  nodeParams := Option.none },
                { toolSt with executionConfirmed := true })) := by
    rcases w with _ | s | a | b | vs | vs | kvs | d0 | w0 | w0
    · exact absurd rfl hw
    all_goals rfl
  rcases hupd : updateLastCallArgs ctx.toolMessage w with e | tm2
  · exact Or.inl ⟨e, by rw [key, hupd]⟩
  · exact Or.inr ⟨_, _, by rw [key, hupd], rfl⟩

/-- C7 (amended): in the CONFIRM_OUTPUT handler, *any* interpretation
other than the booleans `True`/`False` — including an unparsable reply
returned as a raw string — follows the abort path; in the PROVIDE_ARGS /
INVALID_ARGS / CONFIRM_ARGS handlers an unparsable reply (a non-empty raw
string) makes the argument-merge `dict.update` step raise, failing the
turn; and only a parse to `None` acts as the abort sentinel in those three
argument handlers — a `None` interpretation returns the abort directive,
while every other interpretation either raises or routes back to the tool
handler node, never the abort route.  Nowhere is an unparsable reply
treated as "no actionable information, re-ask". -/
theorem unparsable_interpretation_amended
    (toolSt : ToolState) (ctx : SuspendCtx) (response : String)
    (v u : Value) (hv1 : v ≠ .bool true) (hv2 : v ≠ .bool false)
    (content : String) (hc : content.data ≠ [])
    (call : ToolCall) (hcall : ctx.toolMessage.toolCalls.getLast? = some call) :
    outputConfirmationHandle toolSt ctx response v u =
      .ok (abortDirective ctx.toolMessage response, toolSt) ∧
    provideArgsHandle toolSt ctx response (askLlmEvalResult content Option.none) =
      .error (.valueError "dictionary update sequence element #0 has length 1; 2 is required") ∧
    invalidArgsHandle toolSt ctx response (askLlmEvalResult content Option.none) =
      .error (.valueError "dictionary update sequence element #0 has length 1; 2 is required") ∧
    argsConfirmationHandle toolSt ctx response (askLlmEvalResult content Option.none) =
      .error (.valueError "dictionary update sequence element #0 has length 1; 2 is required") ∧
    provideArgsHandle toolSt ctx response .pyNone =
      .ok (abortDirective ctx.toolMessage response, toolSt) ∧
    invalidArgsHandle toolSt ctx response .pyNone =
      .ok (abortDirective ctx.toolMessage response, toolSt) ∧
    argsConfirmationHandle toolSt ctx response .pyNone =
      .ok (abortDirective ctx.toolMessage response, toolSt) ∧
    (∀ w, w ≠ Value.pyNone →
      (∃ e, provideArgsHandle toolSt ctx response w = .error e) ∨
      (∃ d st2, provideArgsHandle toolSt ctx response w = .ok (d, st2) ∧
        d.goto = .node ctx.toolHandlerNode)) ∧
    (∀ w, w ≠ Value.pyNone →
      (∃ e, invalidArgsHandle toolSt ctx response w = .error e) ∨
      (∃ d st2, invalidArgsHandle toolSt ctx response w = .ok (d, st2) ∧
        d.goto = .node ctx.toolHandlerNode)) ∧
    (∀ w, w ≠ Value.pyNone →
      (∃ e, argsConfirmationHandle toolSt ctx response w = .error e) ∨
      (∃ d st2, argsConfirmationHandle toolSt ctx response w = .ok (d, st2) ∧
        d.goto = .node ctx.toolHandlerNode)) := by
  have hne : content.data.isEmpty = false := by
    cases h : content.data with
    | nil => exact absurd h hc
    | cons a t => rfl
  refine ⟨?_, ?_, ?_, ?_, rfl, rfl, rfl,
    fun w hw => provideArgsHandle_nonNone toolSt ctx response w hw,
    fun w hw => invalidArgsHandle_nonNone toolSt ctx response w hw,
    fun w hw => argsConfirmationHandle_nonNone toolSt ctx response w hw⟩
  · rcases v with _ | s | a | b | vs | vs | kvs | d | w | w
    · rfl
    · rfl
    · rfl
    · cases b
      · exact absurd rfl hv2
      · exact absurd rfl hv1
    · rfl
    · rfl
    · rfl
    · rfl
    · rfl
    · rfl
  · simp [provideArgsHandle, askLlmEvalResult, updateLastCallArgs, hcall,
      pyDictUpdate, hne]
  · simp [invalidArgsHandle, askLlmEvalResult, updateLastCallArgs, hcall,
      pyDictUpdate, hne]
  · simp [argsConfirmationHandle, askLlmEvalResult, updateLastCallArgs, hcall,
      pyDictUpdate, hne]

/-- Witness for C7 (amended) at a concrete garbled interpretation. -/
theorem unparsable_interpretation_amended_witness :
    (Value.str "hard to say" ≠ .bool true) ∧
    (Value.str "hard to say" ≠ .bool false) ∧
    ("gibberish reply".data ≠ []) ∧
    ceCtx.toolMessage.toolCalls.getLast? =
      some { id := "c1", name := "code_editor_tool", args := ceArgs } ∧
    (outputConfirmationHandle ceSt1 ceCtx "maybe" (.str "hard to say") .pyNone =
      .ok (abortDirective ceCtx.toolMessage "maybe", ceSt1) ∧
    provideArgsHandle ceSt1 ceCtx "maybe"
        (askLlmEvalResult "gibberish reply" Option.none) =
      .error (.valueError "dictionary update sequence element #0 has length 1; 2 is required") ∧
    invalidArgsHandle ceSt1 ceCtx "maybe"
        (askLlmEvalResult "gibberish reply" Option.none) =
      .error (.valueError "dictionary update sequence element #0 has length 1; 2 is required") ∧
    argsConfirmationHandle ceSt1 ceCtx "maybe"
        (askLlmEvalResult "gibberish reply" Option.none) =
      .error (.valueError "dictionary update sequence element #0 has length 1; 2 is required") ∧
    provideArgsHandle ceSt1 ceCtx "maybe" .pyNone =
      .ok (abortDirective ceCtx.toolMessage "maybe", ceSt1) ∧
    invalidArgsHandle ceSt1 ceCtx "maybe" .pyNone =
      .ok (abortDirective ceCtx.toolMessage "maybe", ceSt1) ∧
    argsConfirmationHandle ceSt1 ceCtx "maybe" .pyNone =
      .ok (abortDirective ceCtx.toolMessage "maybe", ceSt1) ∧
    (∀ w, w ≠ Value.pyNone →
      (∃ e, provideArgsHandle ceSt1 ceCtx "maybe" w = .error e) ∨
      (∃ d st2, provideArgsHandle ceSt1 ceCtx "maybe" w = .ok (d, st2) ∧
        d.goto = .node ceCtx.toolHandlerNode)) ∧
    (∀ w, w ≠ Value.pyNone →
      (∃ e, invalidArgsHandle ceSt1 ceCtx "maybe" w = .error e) ∨
      (∃ d st2, invalidArgsHandle ceSt1 ceCtx "maybe" w = .ok (d, st2) ∧
        d.goto = .node ceCtx.toolHandlerNode)) ∧
    (∀ w, w ≠ Value.pyNone →
      (∃ e, argsConfirmationHandle ceSt1 ceCtx "maybe" w = .error e) ∨
      (∃ d st2, argsConfirmationHandle ceSt1 ceCtx "maybe" w = .ok (d, st2) ∧
        d.goto = .node ceCtx.toolHandlerNode))) := by
  refine ⟨by simp, by simp, by decide, rfl, ?_⟩
  exact unparsable_interpretation_amended ceSt1 ceCtx "maybe"
    (.str "hard to say") .pyNone (by simp) (by simp)
    "gibberish reply" (by decide)
    { id := "c1", name := "code_editor_tool", args := ceArgs } rfl

theorem runTool_ok_inv (t : ToolConfig) (args : Args) (st st' : ToolState)
    (out : Output) (hrun : runTool t args st = (.ok out, st')) :
    st'.outputConfirmed = true ∧
    ∃ args' st1 st2, t.execute args' st1 = (.ok out, st2) ∧
      st' = { st2 with output := some out } := by
  simp only [runTool] at hrun
  by_cases hm : checkRequiredArgs t args ≠ []
  · rw [if_pos hm] at hrun
    simp [Prod.ext_iff] at hrun
  rw [if_neg hm] at hrun
  rcases hv : checkValidationRules t args with e | invalid
  all_goals simp only [hv] at hrun
  · simp [Prod.ext_iff] at hrun
  by_cases hi : invalid ≠ []
  · rw [if_pos hi] at hrun
    simp [Prod.ext_iff] at hrun
  rw [if_neg hi] at hrun
  rcases hinf : inferArgs t args st with ⟨res, st1⟩
  rcases res with e | args'
  all_goals simp only [hinf] at hrun
  · simp [Prod.ext_iff] at hrun
  by_cases hc : !st1.executionConfirmed
  · rw [if_pos hc] at hrun
    simp [Prod.ext_iff] at hrun
  rw [if_neg hc] at hrun
  rcases hexec : t.execute args' st1 with ⟨eres, st2⟩
  rcases eres with e | out1
  all_goals simp only [hexec] at hrun
  · simp [Prod.ext_iff] at hrun
  by_cases ho : !({ st2 with output := some out1 } : ToolState).outputConfirmed
  · rw [if_pos ho] at hrun
    simp [Prod.ext_iff] at hrun
  rw [if_neg ho] at hrun
  simp only [Prod.mk.injEq, RunResult.ok.injEq] at hrun
  obtain ⟨h1, h2⟩ := hrun
  subst h1
  refine ⟨?_, args', st1, st2, hexec, h2.symm⟩
  rw [← h2]
  simpa using ho

theorem cdsHistoricExecute_ok (args : Args) (st st' : ToolState) (out : Output)
    (h : cdsHistoricExecute args st = (.ok out, st')) :
    st'.executionConfirmed = false ∧ st'.outputConfirmed = st.outputConfirmed := by
  simp only [cdsHistoricExecute] at h
  split at h
  · simp at h
  · split at h
    · simp at h
    · split at h
      · simp at h
      · simp only [Prod.mk.injEq] at h
        rw [← h.2]
        exact ⟨rfl, rfl⟩

theorem cdsForecastExecute_ok (args : Args) (st st' : ToolState) (out : Output)
    (h : cdsForecastExecute args st = (.ok out, st')) :
    st'.executionConfirmed = false ∧ st'.outputConfirmed = st.outputConfirmed := by
  simp only [cdsForecastExecute] at h
  split at h
  · simp at h
  · split at h
    · simp at h
    · split at h
      · simp at h
      · simp only [Prod.mk.injEq] at h
        rw [← h.2]
        exact ⟨rfl, rfl⟩

theorem spiExecute_ok (args : Args) (st st' : ToolState) (out : Output)
    (h : spiExecute args st = (.ok out, st')) :
    st'.executionConfirmed = false ∧ st'.outputConfirmed = st.outputConfirmed := by
  simp only [spiExecute, Prod.mk.injEq] at h
  rw [← h.2]
  exact ⟨rfl, rfl⟩

theorem codeEditorExecute_ok (o : Oracles) (args : Args) (st st' : ToolState)
    (out : Output) (h : codeEditorExecute o args st = (.ok out, st')) :
    st'.outputConfirmed = false := by
  simp only [codeEditorExecute] at h
  split at h
  · simp only [Prod.mk.injEq] at h
    rw [← h.2]
  · split at h
    · simp at h
    · split at h
      · simp at h
      · simp only [Prod.mk.injEq] at h
        rw [← h.2]

/-- C5: for every tool of the repository, when `run` completes a cycle
and returns its output (the confirm-output check passed), the tool is
left with `execution_confirmed = false` (each concrete `_execute` ends
with the "back to a consistent state" reset) and with `output_confirmed`
equal to the initial value its `__init__` declared (`True` for the three
notebook tools, which is exactly what the passed confirm-output check
guarantees; the code editor, whose declared value is `False`, never
completes a cycle, since its `_execute` always clears
`output_confirmed`). -/
theorem run_ok_resets_flags (o : Oracles) (t : ToolConfig)
    (ht : t ∈ repoTools o) (args : Args) (st st' : ToolState) (out : Output)
    (hrun : runTool t args st = (.ok out, st')) :
    st'.executionConfirmed = false ∧
    st'.outputConfirmed = t.initialOutputConfirmed := by
  obtain ⟨hout, args', st1, st2, hexec, hst⟩ := runTool_ok_inv t args st st' out hrun
  simp only [repoTools, List.mem_cons, List.mem_singleton] at ht
  rcases ht with rfl | rfl | rfl | rfl | h5
  rotate_right 1
  case _ => simp at h5
  · obtain ⟨he, _⟩ := cdsHistoricExecute_ok args' st1 st2 out hexec
    subst hst
    exact ⟨he, by simpa [cdsHistoricTool] using hout⟩
  · obtain ⟨he, _⟩ := cdsForecastExecute_ok args' st1 st2 out hexec
    subst hst
    exact ⟨he, by simpa [cdsForecastTool] using hout⟩
  · obtain ⟨he, _⟩ := spiExecute_ok args' st1 st2 out hexec
    subst hst
    exact ⟨he, by simpa [spiForecastTool] using hout⟩
  · have hfalse := codeEditorExecute_ok o args' st1 st2 out hexec
    subst hst
    have hcontra : st2.outputConfirmed = true := by simpa using hout
    rw [hfalse] at hcontra
    cases hcontra

/-- Witness for C5: the SPI tool completing a full cycle ends with
`execution_confirmed = false` and `output_confirmed = True` (its declared
initial value). -/
theorem run_ok_resets_flags_witness :
    (spiForecastTool testOracles ∈ repoTools testOracles) ∧
    runTool (spiForecastTool testOracles) spiArgsOk
      { executionConfirmed := true, outputConfirmed := true,
        output := Option.none, effects := [] } =
      (.ok [("notebook", .str "n.ipynb")],
       { executionConfirmed := false, outputConfirmed := true,
         output := some [("notebook", .str "n.ipynb")],
         effects := [.saveNotebook "n.ipynb"] }) ∧
    (false = false ∧
      true = (spiForecastTool testOracles).initialOutputConfirmed) := by
  refine ⟨?_, rfl, ?_⟩
  · exact List.Mem.tail _ (List.Mem.tail _ (List.Mem.head _))
  · exact run_ok_resets_flags testOracles (spiForecastTool testOracles)
      (List.Mem.tail _ (List.Mem.tail _ (List.Mem.head _)))
      spiArgsOk
      { executionConfirmed := true, outputConfirmed := true,
        output := Option.none, effects := [] }
      { executionConfirmed := false, outputConfirmed := true,
        output := some [("notebook", .str "n.ipynb")],
        effects := [.saveNotebook "n.ipynb"] }
      [("notebook", .str "n.ipynb")] rfl

/-! ## Helper lemmas for C4/C9 (inference behaviour of the historic
tool) -/

theorem strLtGo_irrefl (cs : List Char) : strLtGo cs cs = false := by
  induction cs with
  | nil => rfl
  | cons c rest ih => simp [strLtGo, ih]

theorem pyStrLt_irrefl (s : String) : pyStrLt s s = false :=
  strLtGo_irrefl s.data

theorem isPrefixOf_self_append (l x : List Char) : l.isPrefixOf (l ++ x) = true := by
  induction l with
  | nil => simp [List.isPrefixOf]
  | cons c rest ih => simp [List.isPrefixOf, ih]

theorem pyEndsWith_append (s t : String) : pyEndsWith (s ++ t) t = true := by
  have hdata : (s ++ t).data = s.data ++ t.data := rfl
  simp only [pyEndsWith, hdata, List.isSuffixOf, List.reverse_append]
  exact isPrefixOf_self_append _ _

theorem floorDecimalsNum_exp (a : PyNum) (d : ℕ) :
    (floorDecimalsNum a d).exp10 = d := by
  unfold floorDecimalsNum
  split <;> rfl

theorem floorDecimalsNum_idem (a : PyNum) (d : ℕ) :
    floorDecimalsNum (floorDecimalsNum a d) d = floorDecimalsNum a d := by
  by_cases h : a.exp10 ≤ d
  · simp [floorDecimalsNum, h, Nat.sub_self]
  · simp [floorDecimalsNum, h, Nat.sub_self]

theorem ceilDecimalsNum_exp (a : PyNum) (d : ℕ) :
    (ceilDecimalsNum a d).exp10 = d := by
  unfold ceilDecimalsNum
  split <;> rfl

theorem ceilDecimalsNum_idem (a : PyNum) (d : ℕ) :
    ceilDecimalsNum (ceilDecimalsNum a d) d = ceilDecimalsNum a d := by
  by_cases h : a.exp10 ≤ d
  · simp [ceilDecimalsNum, h, Nat.sub_self]
  · simp [ceilDecimalsNum, h, Nat.sub_self]

theorem histDatasetFromStr_enum (d : HistDataset) :
    histDatasetFromStr (.histDataset d) = .ok (some d) := by
  cases d <;> rfl

theorem histVarFromStr_enum (w : HistVariable) :
    histVarFromStr (.histVar w) = .ok (some w) := by
  cases w <;> rfl

theorem mapHistVarsRaise_enums (ws : List HistVariable) :
    mapHistVarsRaise (ws.map Value.histVar) = .ok ws := by
  induction ws with
  | nil => rfl
  | cons w rest ih => simp [mapHistVarsRaise, histVarFromStr_enum, ih, Except.map]

theorem joinIciskHist_enums (ws : List HistVariable) :
    joinIciskHist (ws.map Value.histVar) = .ok (ws.map HistVariable.asIcisk) := by
  induction ws with
  | nil => rfl
  | cons w rest ih => simp [joinIciskHist, ih, Except.map]

theorem getArg_of_mem_keys (args : Args) (k : String) (h : k ∈ argKeys args) :
    ∃ p, p ∈ args ∧ p.1 = k ∧ getArg args k = p.2 := by
  induction args with
  | nil => simp [argKeys] at h
  | cons p rest ih =>
      obtain ⟨k', v'⟩ := p
      by_cases hp : k' = k
      · exact ⟨(k', v'), List.mem_cons_self _ _, hp,
          by simp [getArg, List.find?, hp]⟩
      · simp only [argKeys, List.map_cons, List.mem_cons] at h
        rcases h with h | h
        · exact absurd h.symm hp
        · obtain ⟨q, hq, hqk, hqv⟩ := ih h
          exact ⟨q, List.mem_cons_of_mem _ hq, hqk,
            by simpa [getArg, List.find?, hp] using hqv⟩

theorem getArg_not_none (args : Args) (k : String)
    (hnn : ∀ p ∈ args, Value.isPyNone p.2 = false) (h : k ∈ argKeys args) :
    (getArg args k).isPyNone = false := by
  obtain ⟨p, hp, _, hv⟩ := getArg_of_mem_keys args k h
  rw [hv]
  exact hnn p hp

/-! ### Extraction of facts from a clean validation pass -/

theorem runRulesLast_ok_none_forall (rs : List ValidationRule) (args : Args)
    (acc : Option String) (h : runRulesLast rs args acc = .ok Option.none) :
    acc = Option.none ∧ ∀ r ∈ rs, r args = .ok Option.none := by
  induction rs generalizing acc with
  | nil =>
      simp only [runRulesLast, Except.ok.injEq] at h
      exact ⟨h, by simp⟩
  | cons r rest ih =>
      simp only [runRulesLast] at h
      rcases hr : r args with e | reason
      all_goals simp only [hr] at h
      · cases h
      · rcases reason with _ | rr
        · obtain ⟨ha, hall⟩ := ih acc h
          refine ⟨ha, ?_⟩
          intro r' hr'
          rcases List.mem_cons.mp hr' with rfl | hm
          · exact hr
          · exact hall r' hm
        · obtain ⟨ha, _⟩ := ih (some rr) h
          cases ha

theorem checkValidationRulesGo_ne_nil (vr : String → List ValidationRule)
    (schema : List (String × Bool)) (args : Args)
    (acc res : List (String × String))
    (h : checkValidationRulesGo vr schema args acc = .ok res)
    (hacc : acc ≠ []) : res ≠ [] := by
  induction schema generalizing acc with
  | nil =>
      simp only [checkValidationRulesGo, Except.ok.injEq] at h
      rw [← h]
      exact hacc
  | cons p rest ih =>
      obtain ⟨k, req⟩ := p
      simp only [checkValidationRulesGo] at h
      rcases hr : runRulesLast (vr k) args Option.none with e | reason
      all_goals simp only [hr] at h
      · cases h
      · rcases reason with _ | rr
        · exact ih acc h hacc
        · exact ih (acc ++ [(k, rr)]) h (by simp)

theorem checkGo_cons_ok_nil (vr : String → List ValidationRule) (k : String)
    (req : Bool) (rest : List (String × Bool)) (args : Args)
    (h : checkValidationRulesGo vr ((k, req) :: rest) args [] = .ok []) :
    runRulesLast (vr k) args Option.none = .ok Option.none ∧
    checkValidationRulesGo vr rest args [] = .ok [] := by
  simp only [checkValidationRulesGo] at h
  rcases hr : runRulesLast (vr k) args Option.none with e | reason
  all_goals simp only [hr] at h
  · cases h
  · rcases reason with _ | rr
    · exact ⟨rfl, h⟩
    · exact absurd rfl
        (checkValidationRulesGo_ne_nil vr rest args [(k, rr)] [] h (by simp))

/-- A clean validation pass of the historic tool yields the per-rule
facts needed to run inference. -/
theorem hist_validation_facts (c : Clock) (args : Args)
    (hval : checkValidationRulesGo (cdsHistoricValidationRules c)
      cdsHistoricSchema args [] = .ok []) :
    cdsHistDatasetRule args = .ok Option.none ∧
    cdsHistVariablesRule args = .ok Option.none ∧
    bboxAreaRule args = .ok Option.none := by
  have e1 : cdsHistoricValidationRules c "historic_dataset" = [cdsHistDatasetRule] := rfl
  have e2 : cdsHistoricValidationRules c "historic_variables" = [cdsHistVariablesRule] := rfl
  have e3 : cdsHistoricValidationRules c "area" = [bboxAreaRule] := rfl
  simp only [cdsHistoricSchema] at hval
  have h1 := checkGo_cons_ok_nil _ _ _ _ _ hval
  have h2 := checkGo_cons_ok_nil _ _ _ _ _ h1.2
  have h3 := checkGo_cons_ok_nil _ _ _ _ _ h2.2
  rw [e1] at h1
  rw [e2] at h2
  rw [e3] at h3
  obtain ⟨_, f1⟩ := runRulesLast_ok_none_forall _ _ _ h1.1
  obtain ⟨_, f2⟩ := runRulesLast_ok_none_forall _ _ _ h2.1
  obtain ⟨_, f3⟩ := runRulesLast_ok_none_forall _ _ _ h3.1
  exact ⟨f1 _ (by simp), f2 _ (by simp), f3 _ (by simp)⟩

theorem datasetRule_fact (args : Args)
    (h : cdsHistDatasetRule args = .ok Option.none) :
    ∃ d, histDatasetFromStr (getArg args "historic_dataset") = .ok (some d) := by
  simp only [cdsHistDatasetRule] at h
  rcases hfs : histDatasetFromStr (getArg args "historic_dataset") with e | od
  all_goals simp only [hfs] at h
  · cases h
  · rcases od with _ | d
    · simp at h
    · exact ⟨d, rfl⟩

theorem variablesRule_fact (args : Args)
    (h : cdsHistVariablesRule args = .ok Option.none) :
    ∃ vs, pyIter (getArg args "historic_variables") = .ok vs ∧
      collectBadHistVars vs = .ok [] := by
  simp only [cdsHistVariablesRule] at h
  rcases hit : pyIter (getArg args "historic_variables") with e | vs
  all_goals simp only [hit] at h
  · cases h
  · rcases hbad : collectBadHistVars vs with e | bad
    all_goals simp only [hbad] at h
    · cases h
    · refine ⟨vs, rfl, ?_⟩
      rcases bad with _ | ⟨b, bs⟩
      · exact hbad
      · simp at h

theorem collectBad_nil_mapRaise (vs : List Value)
    (h : collectBadHistVars vs = .ok []) :
    ∃ ws, mapHistVarsRaise vs = .ok ws := by
  induction vs with
  | nil => exact ⟨[], rfl⟩
  | cons v rest ih =>
      simp only [collectBadHistVars] at h
      rcases hfs : histVarFromStr v with e | ow
      all_goals simp only [hfs] at h
      · cases h
      · rcases ow with _ | w
        · rcases hr : collectBadHistVars rest with e | l
          all_goals simp only [hr, Except.map] at h
          · cases h
          · simp at h
        · obtain ⟨ws, hws⟩ := ih h
          exact ⟨w :: ws, by simp [mapHistVarsRaise, hfs, hws, Except.map]⟩

theorem areaRule_fact (args : Args)
    (h : bboxAreaRule args = .ok Option.none) :
    ∀ vs, getArg args "area" = .list vs → vs.length = 4 := by
  intro vs hvs
  simp only [bboxAreaRule, hvs] at h
  by_cases hl : vs.length ≠ 4
  · simp [hl] at h
  · push_neg at hl
    exact hl

/-! ### Per-argument inference step lemmas (historic tool) -/

/-- `None | str`-typed value (what the pydantic schema admits for the
time/path fields). -/
def StrOrNone (v : Value) : Prop :=
  v = .pyNone ∨ ∃ s, v = .str s

/-- The invoke-level typing of the historic tool's argument dictionary
(what the pydantic `InputSchema` admits: `None | str` for the dataset and
time/path fields, `None | list[str]` for the variables, and
`None | str | list[float]` for the area). -/
def SchemaTypedHist (args : Args) : Prop :=
  StrOrNone (getArg args "historic_dataset") ∧
  (getArg args "historic_variables" = .pyNone ∨
    ∃ ss : List String,
      getArg args "historic_variables" = .list (ss.map Value.str)) ∧
  (getArg args "area" = .pyNone ∨ (∃ s, getArg args "area" = .str s) ∨
    (∃ ns : List PyNum, getArg args "area" = .list (ns.map Value.num))) ∧
  StrOrNone (getArg args "start_time") ∧
  StrOrNone (getArg args "end_time") ∧
  StrOrNone (getArg args "zarr_output") ∧
  StrOrNone (getArg args "jupyter_notebook")

/-- The interface contract of the geocoding call (the prompt asks for a
`[min_x, min_y, max_x, max_y]` list). -/
def GeoContract (geo : String → Value) : Prop :=
  ∀ s, ∃ a b c d, geo s = .list [.num a, .num b, .num c, .num d]

theorem inferDataset_step (args : Args) (st : ToolState) (d : HistDataset)
    (h : histDatasetFromStr (getArg args "historic_dataset") = .ok (some d)) :
    cdsHistInferDataset args st = (.ok (.histDataset d), st) := by
  simp [cdsHistInferDataset, h]

theorem inferVariables_step (args : Args) (st : ToolState) (vs : List Value)
    (ws : List HistVariable)
    (hv : pyIter (getArg args "historic_variables") = .ok vs)
    (hm : mapHistVarsRaise vs = .ok ws) :
    cdsHistInferVariables args st = (.ok (.list (ws.map Value.histVar)), st) := by
  simp [cdsHistInferVariables, hv, hm]

theorem roundBBox_nums (a b c d : PyNum) (p : ℕ) :
    roundBBox [.num a, .num b, .num c, .num d] p =
      .ok (.list [.num (floorDecimalsNum a p), .num (floorDecimalsNum b p),
                  .num (ceilDecimalsNum c p), .num (ceilDecimalsNum d p)]) := rfl

theorem inferArea_step_str (geo : String → Value) (args : Args)
    (st : ToolState) (s : String) (a b c d : PyNum)
    (ha : getArg args "area" = .str s)
    (hg : geo s = .list [.num a, .num b, .num c, .num d]) :
    cdsHistInferArea geo args st =
      (.ok (.list [.num (floorDecimalsNum a 1), .num (floorDecimalsNum b 1),
                   .num (ceilDecimalsNum c 1), .num (ceilDecimalsNum d 1)]),
       { st with executionConfirmed := false }) := by
  simp [cdsHistInferArea, ha, hg, roundBBox_nums]

theorem inferArea_step_numlist (geo : String → Value) (args : Args)
    (st : ToolState) (a b c d : PyNum)
    (ha : getArg args "area" = .list [.num a, .num b, .num c, .num d]) :
    cdsHistInferArea geo args st =
      (.ok (.list [.num (floorDecimalsNum a 1), .num (floorDecimalsNum b 1),
                   .num (ceilDecimalsNum c 1), .num (ceilDecimalsNum d 1)]), st) := by
  simp [cdsHistInferArea, ha, roundBBox_nums]

theorem inferStart_step_strs (c : Clock) (args : Args) (st : ToolState)
    (s e : String)
    (hs : getArg args "start_time" = .str s)
    (he : getArg args "end_time" = .str e) :
    cdsHistInferStart c args st =
      (.ok (.str (if pyStrLt e s then e else s)), st) := by
  by_cases hlt : pyStrLt e s
  · simp [cdsHistInferStart, hs, he, pyGtValue, Value.asPyStr?, Value.isPyNone, hlt]
  · simp [cdsHistInferStart, hs, he, pyGtValue, Value.asPyStr?, Value.isPyNone, hlt]

theorem inferEnd_step_strs (c : Clock) (args : Args) (st : ToolState)
    (s e : String)
    (hs : getArg args "start_time" = .str s)
    (he : getArg args "end_time" = .str e) :
    cdsHistInferEnd c args st =
      (.ok (.str (if pyStrLt e s then s else e)), st) := by
  by_cases hlt : pyStrLt e s
  · simp [cdsHistInferEnd, hs, he, pyLtValue, pyGtValue, Value.asPyStr?,
      Value.isPyNone, hlt]
  · simp [cdsHistInferEnd, hs, he, pyLtValue, pyGtValue, Value.asPyStr?,
      Value.isPyNone, hlt]

theorem inferZarr_step_str (c : Clock) (args : Args) (st : ToolState)
    (z : String) (hz : getArg args "zarr_output" = .str z) :
    cdsHistInferZarr c args st =
      (.ok (if pyEndsWith z ".zarr" then .str z else .str (z ++ ".zarr")), st) := by
  by_cases he : pyEndsWith z ".zarr"
  · simp [cdsHistInferZarr, hz, Value.asPyStr?, he]
  · simp [cdsHistInferZarr, hz, Value.asPyStr?, he]

theorem inferZarr_step_none (c : Clock) (args : Args) (st : ToolState)
    (ws : List HistVariable)
    (hz : getArg args "zarr_output" = .pyNone)
    (hv : getArg args "historic_variables" = .list (ws.map Value.histVar)) :
    cdsHistInferZarr c args st =
      (.ok (.str ("icisk-ai_cds-historic-" ++
        joinWithSep "-" (ws.map HistVariable.asIcisk) ++ "_" ++ c.iso ++ ".zarr")), st) := by
  simp [cdsHistInferZarr, hz, hv, pyIter, joinIciskHist_enums]

theorem inferNotebook_step_str (c : Clock) (args : Args) (st : ToolState)
    (z : String) (hz : getArg args "jupyter_notebook" = .str z) :
    cdsHistInferNotebook c args st =
      (.ok (if pyEndsWith z ".ipynb" then .str z else .str (z ++ ".ipynb")), st) := by
  by_cases he : pyEndsWith z ".ipynb"
  · simp [cdsHistInferNotebook, hz, Value.asPyStr?, he]
  · simp [cdsHistInferNotebook, hz, Value.asPyStr?, he]

theorem inferNotebook_step_none (c : Clock) (args : Args) (st : ToolState)
    (ws : List HistVariable)
    (hz : getArg args "jupyter_notebook" = .pyNone)
    (hv : getArg args "historic_variables" = .list (ws.map Value.histVar)) :
    cdsHistInferNotebook c args st =
      (.ok (.str ("icisk-ai_cds-historic-" ++
        joinWithSep "-" (ws.map HistVariable.asIcisk) ++ "_" ++ c.iso ++ ".ipynb")), st) := by
  simp [cdsHistInferNotebook, hz, hv, pyIter, joinIciskHist_enums]

theorem inferStart_ok (c : Clock) (args : Args) (st : ToolState)
    (hs : StrOrNone (getArg args "start_time"))
    (he : StrOrNone (getArg args "end_time")) :
    ∃ v, cdsHistInferStart c args st = (.ok (.str v), st) := by
  rcases hs with hs | ⟨s, hs⟩
  · exact ⟨strftimeYM01 { c.today with month := 2 },
      by simp [cdsHistInferStart, hs]⟩
  · rcases he with he | ⟨e, he⟩
    · exact ⟨s, by simp [cdsHistInferStart, hs, he, Value.isPyNone]⟩
    · exact ⟨_, inferStart_step_strs c args st s e hs he⟩

theorem inferEnd_ok (c : Clock) (args : Args) (st : ToolState)
    (hs : StrOrNone (getArg args "start_time"))
    (he : StrOrNone (getArg args "end_time")) :
    ∃ v, cdsHistInferEnd c args st = (.ok (.str v), st) := by
  rcases he with he | ⟨e, he⟩
  · exact ⟨strftimeYM01 { c.today with month := 1 },
      by simp [cdsHistInferEnd, he]⟩
  · rcases hs with hs | ⟨s, hs⟩
    · exact ⟨e, by simp [cdsHistInferEnd, hs, he, Value.isPyNone]⟩
    · exact ⟨_, inferEnd_step_strs c args st s e hs he⟩

theorem inferZarr_ok (c : Clock) (args : Args) (st : ToolState)
    (ws : List HistVariable)
    (hv : getArg args "historic_variables" = .list (ws.map Value.histVar))
    (hz : StrOrNone (getArg args "zarr_output")) :
    ∃ v, cdsHistInferZarr c args st = (.ok (.str v), st) := by
  rcases hz with hz | ⟨z, hz⟩
  · exact ⟨_, inferZarr_step_none c args st ws hz hv⟩
  · by_cases he : pyEndsWith z ".zarr"
    · exact ⟨z, by simpa [he] using inferZarr_step_str c args st z hz⟩
    · exact ⟨z ++ ".zarr", by simpa [he] using inferZarr_step_str c args st z hz⟩

theorem inferNotebook_ok (c : Clock) (args : Args) (st : ToolState)
    (ws : List HistVariable)
    (hv : getArg args "historic_variables" = .list (ws.map Value.histVar))
    (hz : StrOrNone (getArg args "jupyter_notebook")) :
    ∃ v, cdsHistInferNotebook c args st = (.ok (.str v), st) := by
  rcases hz with hz | ⟨z, hz⟩
  · exact ⟨_, inferNotebook_step_none c args st ws hz hv⟩
  · by_cases he : pyEndsWith z ".ipynb"
    · exact ⟨z, by simpa [he] using inferNotebook_step_str c args st z hz⟩
    · exact ⟨z ++ ".ipynb", by simpa [he] using inferNotebook_step_str c args st z hz⟩

theorem inferArgsGo_cons_some (ir : String → Option InferenceRule)
    (k : String) (req : Bool) (rest : List (String × Bool)) (args : Args)
    (st : ToolState) (rule : InferenceRule) (hr : ir k = some rule)
    (v : Value) (st' : ToolState) (hrule : rule args st = (.ok v, st')) :
    inferArgsGo ir ((k, req) :: rest) args st =
      inferArgsGo ir rest (setArg args k v) st' := by
  simp [inferArgsGo, hr, hrule]

/-- Oracles whose geocoder violates the bounding-box contract: it
returns a two-element list. -/
def badGeoOracles : Oracles :=
  { testOracles with geo := fun _ => .list [.num ⟨1, 0⟩, .num ⟨2, 0⟩] }

/-- The C4 counterexample argument set: everything well-typed and valid,
with a textual area that triggers the geocoding call. -/
def c4Args : Args :=
  [("historic_dataset", .str "reanalysis-era5-land"),
   ("historic_variables", .list [.str "temperature"]),
   ("area", .str "Atlantis"),
   ("start_time", .str "2025-05-01"),
   ("end_time", .str "2025-06-01"),
   ("zarr_output", .str "o.zarr"),
   ("jupyter_notebook", .str "n.ipynb")]

/-- C4 (counterexample): an argument set that passes the required-check
and the validation phase can still make `infer_args` raise — the area
inference indexes the geocoding response (`round_bounding_box`,
`area[2]`), so a two-element response raises `IndexError` inside
inference, and `run` fails there. -/
theorem inference_raises_counterexample :
    checkRequiredArgs (cdsHistoricTool badGeoOracles) c4Args = [] ∧
    checkValidationRules (cdsHistoricTool badGeoOracles) c4Args = .ok [] ∧
    (inferArgs (cdsHistoricTool badGeoOracles) c4Args
      (cdsHistoricTool badGeoOracles).initState).1 = .error .indexError ∧
    (runTool (cdsHistoricTool badGeoOracles) c4Args
      (cdsHistoricTool badGeoOracles).initState).1 = .error .indexError :=
  ⟨rfl, rfl, rfl, rfl⟩

/-- C4 (amended): for every argument set that is typed as the invoke-time
schema admits, passes the required-check and passes validation, the
inference phase raises no exception *provided* the geocoding model
response is a `[min_x, min_y, max_x, max_y]` number list (the interface
contract the prompt states); without that proviso the area inference step
can raise, as the counterexample shows. -/
theorem inference_no_raise_with_geo_contract (o : Oracles) (args : Args)
    (st : ToolState)
    (htype : SchemaTypedHist args)
    (hreq : checkRequiredArgs (cdsHistoricTool o) args = [])
    (hval : checkValidationRules (cdsHistoricTool o) args = .ok [])
    (hgeo : GeoContract o.geo) :
    ∃ args' st', inferArgs (cdsHistoricTool o) args st = (.ok args', st') := by
  obtain ⟨htD, htV, htA, htS, htE, htZ, htN⟩ := htype
  have hfacts := hist_validation_facts o.clock args
    (by simpa [checkValidationRules, cdsHistoricTool] using hval)
  obtain ⟨d, hds⟩ := datasetRule_fact args hfacts.1
  obtain ⟨vs, hit, hbad⟩ := variablesRule_fact args hfacts.2.1
  obtain ⟨ws, hmap⟩ := collectBad_nil_mapRaise vs hbad
  have harea4 := areaRule_fact args hfacts.2.2
  -- step 1: historic_dataset
  rw [show inferArgs (cdsHistoricTool o) args st =
      inferArgsGo (cdsHistoricInferenceRules o)
        [("historic_dataset", true), ("historic_variables", true),
         ("area", true), ("start_time", false), ("end_time", false),
         ("zarr_output", false), ("jupyter_notebook", false)] args st from rfl]
  rw [inferArgsGo_cons_some _ _ _ _ _ _ _ rfl _ _
    (inferDataset_step args st d hds)]
  -- step 2: historic_variables
  have g2 : getArg (setArg args "historic_dataset" (.histDataset d))
      "historic_variables" = getArg args "historic_variables" :=
    getArg_setArg_other _ _ _ _ (by decide)
  rw [inferArgsGo_cons_some _ _ _ _ _ _ _ rfl _ _
    (inferVariables_step _ st vs ws (by rw [g2]; exact hit) hmap)]
  set A2 := setArg (setArg args "historic_dataset" (.histDataset d))
    "historic_variables" (.list (ws.map Value.histVar)) with hA2
  -- transfers into A2
  have g3 : getArg A2 "area" = getArg args "area" := by
    rw [hA2, getArg_setArg_other _ _ _ _ (by decide),
      getArg_setArg_other _ _ _ _ (by decide)]
  have gvars : getArg A2 "historic_variables" = .list (ws.map Value.histVar) := by
    rw [hA2, getArg_setArg_same]
  -- step 3: area (three schema-admissible shapes)
  have harea : ∃ v stA, cdsHistInferArea o.geo A2 st = (.ok v, stA) := by
    rcases htA with hA | ⟨s, hA⟩ | ⟨ns, hA⟩
    · exact ⟨.pyNone, st, by simp [cdsHistInferArea, g3.trans hA]⟩
    · obtain ⟨a, b, c', d', hg⟩ := hgeo s
      exact ⟨_, _, inferArea_step_str o.geo A2 st s a b c' d' (g3.trans hA) hg⟩
    · have hlen : (ns.map Value.num).length = 4 := harea4 _ hA
      simp only [List.length_map] at hlen
      rcases ns with _ | ⟨a, _ | ⟨b, _ | ⟨c', _ | ⟨d', _ | _⟩⟩⟩⟩ <;>
        simp at hlen
      exact ⟨_, st, inferArea_step_numlist o.geo A2 st a b c' d'
        (by simpa using g3.trans hA)⟩
  obtain ⟨vA, stA, hstep3⟩ := harea
  rw [inferArgsGo_cons_some _ _ _ _ _ _ _ rfl _ _ hstep3]
  set A3 := setArg A2 "area" vA with hA3
  -- transfers into A3
  have g4s : getArg A3 "start_time" = getArg args "start_time" := by
    rw [hA3, getArg_setArg_other _ _ _ _ (by decide), hA2,
      getArg_setArg_other _ _ _ _ (by decide),
      getArg_setArg_other _ _ _ _ (by decide)]
  have g4e : getArg A3 "end_time" = getArg args "end_time" := by
    rw [hA3, getArg_setArg_other _ _ _ _ (by decide), hA2,
      getArg_setArg_other _ _ _ _ (by decide),
      getArg_setArg_other _ _ _ _ (by decide)]
  -- step 4: start_time
  obtain ⟨v4, hstep4⟩ := inferStart_ok o.clock A3 stA
    (by rw [g4s]; exact htS) (by rw [g4e]; exact htE)
  rw [inferArgsGo_cons_some _ _ _ _ _ _ _ rfl _ _ hstep4]
  set A4 := setArg A3 "start_time" (.str v4) with hA4
  have g5s : getArg A4 "start_time" = .str v4 := by
    rw [hA4, getArg_setArg_same]
  have g5e : getArg A4 "end_time" = getArg args "end_time" := by
    rw [hA4, getArg_setArg_other _ _ _ _ (by decide), g4e]
  -- step 5: end_time
  obtain ⟨v5, hstep5⟩ := inferEnd_ok o.clock A4 stA
    (by rw [g5s]; exact Or.inr ⟨v4, rfl⟩) (by rw [g5e]; exact htE)
  rw [inferArgsGo_cons_some _ _ _ _ _ _ _ rfl _ _ hstep5]
  set A5 := setArg A4 "end_time" (.str v5) with hA5
  have g6v : getArg A5 "historic_variables" = .list (ws.map Value.histVar) := by
    rw [hA5, getArg_setArg_other _ _ _ _ (by decide), hA4,
      getArg_setArg_other _ _ _ _ (by decide), hA3,
      getArg_setArg_other _ _ _ _ (by decide), gvars]
  have g6z : getArg A5 "zarr_output" = getArg args "zarr_output" := by
    rw [hA5, getArg_setArg_other _ _ _ _ (by decide), hA4,
      getArg_setArg_other _ _ _ _ (by decide), hA3,
      getArg_setArg_other _ _ _ _ (by decide), hA2,
      getArg_setArg_other _ _ _ _ (by decide),
      getArg_setArg_other _ _ _ _ (by decide)]
  -- step 6: zarr_output
  obtain ⟨v6, hstep6⟩ := inferZarr_ok o.clock A5 stA ws g6v
    (by rw [g6z]; exact htZ)
  rw [inferArgsGo_cons_some _ _ _ _ _ _ _ rfl _ _ hstep6]
  set A6 := setArg A5 "zarr_output" (.str v6) with hA6
  have g7v : getArg A6 "historic_variables" = .list (ws.map Value.histVar) := by
    rw [hA6, getArg_setArg_other _ _ _ _ (by decide), g6v]
  have g7n : getArg A6 "jupyter_notebook" = getArg args "jupyter_notebook" := by
    rw [hA6, getArg_setArg_other _ _ _ _ (by decide), hA5,
      getArg_setArg_other _ _ _ _ (by decide), hA4,
      getArg_setArg_other _ _ _ _ (by decide), hA3,
      getArg_setArg_other _ _ _ _ (by decide), hA2,
      getArg_setArg_other _ _ _ _ (by decide),
      getArg_setArg_other _ _ _ _ (by decide)]
  -- step 7: jupyter_notebook
  obtain ⟨v7, hstep7⟩ := inferNotebook_ok o.clock A6 stA ws g7v
    (by rw [g7n]; exact htN)
  rw [inferArgsGo_cons_some _ _ _ _ _ _ _ rfl _ _ hstep7]
  exact ⟨_, stA, rfl⟩

/-- Witness for C4 (amended): the fully specified valid argument set with
a numeric bounding box and the contract-abiding test geocoder. -/
theorem inference_no_raise_with_geo_contract_witness :
    SchemaTypedHist histArgsOk ∧
    checkRequiredArgs (cdsHistoricTool testOracles) histArgsOk = [] ∧
    checkValidationRules (cdsHistoricTool testOracles) histArgsOk = .ok [] ∧
    GeoContract testOracles.geo ∧
    (∃ args' st', inferArgs (cdsHistoricTool testOracles) histArgsOk
      (cdsHistoricTool testOracles).initState = (.ok args', st')) := by
  have htype : SchemaTypedHist histArgsOk := by
    refine ⟨Or.inr ⟨"reanalysis-era5-land", rfl⟩,
      Or.inr ⟨["temperature"], rfl⟩,
      Or.inr (Or.inr ⟨[⟨12, 0⟩, ⟨52, 0⟩, ⟨14, 0⟩, ⟨53, 0⟩], rfl⟩),
      Or.inr ⟨"2025-05-01", rfl⟩, Or.inr ⟨"2025-06-01", rfl⟩,
      Or.inr ⟨"o.zarr", rfl⟩, Or.inr ⟨"n.ipynb", rfl⟩⟩
  have hgeo : GeoContract testOracles.geo :=
    fun _ => ⟨⟨12, 0⟩, ⟨52, 0⟩, ⟨14, 0⟩, ⟨53, 0⟩, rfl⟩
  exact ⟨htype, rfl, rfl, hgeo,
    inference_no_raise_with_geo_contract testOracles histArgsOk _
      htype rfl rfl hgeo⟩

theorem mem_argKeys_setArg_self (args : Args) (k : String) (v : Value) :
    k ∈ argKeys (setArg args k v) := by
  induction args with
  | nil => simp [setArg, argKeys]
  | cons p rest ih =>
      obtain ⟨k0, v0⟩ := p
      by_cases h : k0 = k
      · simp [setArg, argKeys, h]
      · simp only [setArg, if_neg h, argKeys, List.map_cons, List.mem_cons]
        exact Or.inr ih

theorem mem_argKeys_setArg (args : Args) (k k0 : String) (v : Value)
    (h : k ∈ argKeys args) : k ∈ argKeys (setArg args k0 v) := by
  induction args with
  | nil => simp [argKeys] at h
  | cons p rest ih =>
      obtain ⟨k1, v1⟩ := p
      simp only [argKeys, List.map_cons, List.mem_cons] at h
      by_cases hp : k1 = k0
      · simp only [setArg, if_pos hp, argKeys, List.map_cons, List.mem_cons]
        rcases h with h | h
        · exact Or.inl (h.trans hp)
        · exact Or.inr h
      · simp only [setArg, if_neg hp, argKeys, List.map_cons, List.mem_cons]
        rcases h with h | h
        · exact Or.inl h
        · exact Or.inr (ih h)

/-- C9: on the historic tool, `infer_args` is idempotent on fully
specified valid inputs: if every schema argument is present (non-null,
with the type the invoke-time schema admits), validation passes, and the
geocoder obeys its bounding-box interface contract, then a second
`infer_args` pass over the result of a first pass returns the argument
mapping unchanged. -/
theorem infer_args_idempotent (o : Oracles) (args : Args)
    (st1 st2 stOut : ToolState) (args1 : Args)
    (hD : ∃ s, getArg args "historic_dataset" = Value.str s)
    (hV : ∃ ss : List String, getArg args "historic_variables" =
      Value.list (ss.map Value.str))
    (hA : (∃ s, getArg args "area" = Value.str s) ∨
      (∃ ns : List PyNum, getArg args "area" = Value.list (ns.map Value.num)))
    (hS : ∃ s, getArg args "start_time" = Value.str s)
    (hE : ∃ s, getArg args "end_time" = Value.str s)
    (hZ : ∃ s, getArg args "zarr_output" = Value.str s)
    (hN : ∃ s, getArg args "jupyter_notebook" = Value.str s)
    (hval : checkValidationRules (cdsHistoricTool o) args = .ok [])
    (hgeo : GeoContract o.geo)
    (hpass1 : inferArgs (cdsHistoricTool o) args st1 = (.ok args1, stOut)) :
    (inferArgs (cdsHistoricTool o) args1 st2).1 = .ok args1 := by
  obtain ⟨sD, hD⟩ := hD
  obtain ⟨ss, hV⟩ := hV
  obtain ⟨sS, hS⟩ := hS
  obtain ⟨sE, hE⟩ := hE
  obtain ⟨sZ, hZ⟩ := hZ
  obtain ⟨sN, hN⟩ := hN
  have hfacts := hist_validation_facts o.clock args
    (by simpa [checkValidationRules, cdsHistoricTool] using hval)
  obtain ⟨d, hds⟩ := datasetRule_fact args hfacts.1
  obtain ⟨vs, hit, hbad⟩ := variablesRule_fact args hfacts.2.1
  obtain ⟨ws, hmap⟩ := collectBad_nil_mapRaise vs hbad
  -- first pass, step 1: historic_dataset
  have hstep1 := inferDataset_step args st1 d hds
  set B1 := setArg args "historic_dataset" (Value.histDataset d) with hB1
  -- step 2: historic_variables
  have gB1v : getArg B1 "historic_variables" = getArg args "historic_variables" := by
    rw [hB1, getArg_setArg_other _ _ _ _ (by decide)]
  have hstep2 := inferVariables_step B1 st1 vs ws (by rw [gB1v]; exact hit) hmap
  set B2 := setArg B1 "historic_variables" (Value.list (ws.map Value.histVar))
    with hB2
  -- step 3: area
  have gB2a : getArg B2 "area" = getArg args "area" := by
    rw [hB2, getArg_setArg_other _ _ _ _ (by decide), hB1,
      getArg_setArg_other _ _ _ _ (by decide)]
  have harea : ∃ pa pb pc pd stA, cdsHistInferArea o.geo B2 st1 =
      (.ok (Value.list [.num (floorDecimalsNum pa 1), .num (floorDecimalsNum pb 1),
        .num (ceilDecimalsNum pc 1), .num (ceilDecimalsNum pd 1)]), stA) := by
    rcases hA with ⟨s, hA⟩ | ⟨ns, hA⟩
    · obtain ⟨pa, pb, pc, pd, hg⟩ := hgeo s
      exact ⟨pa, pb, pc, pd, _, inferArea_step_str o.geo B2 st1 s pa pb pc pd
        (gB2a.trans hA) hg⟩
    · have hlen := areaRule_fact args hfacts.2.2 _ hA
      simp only [List.length_map] at hlen
      rcases ns with _ | ⟨pa, _ | ⟨pb, _ | ⟨pc, _ | ⟨pd, _ | _⟩⟩⟩⟩ <;>
        simp at hlen
      exact ⟨pa, pb, pc, pd, st1, inferArea_step_numlist o.geo B2 st1 pa pb pc pd
        (by simpa using gB2a.trans hA)⟩
  obtain ⟨pa, pb, pc, pd, stA, hstep3⟩ := harea
  set B3 := setArg B2 "area" (Value.list [.num (floorDecimalsNum pa 1),
    .num (floorDecimalsNum pb 1), .num (ceilDecimalsNum pc 1),
    .num (ceilDecimalsNum pd 1)]) with hB3
  -- step 4: start_time
  have gB3s : getArg B3 "start_time" = Value.str sS := by
    rw [hB3, getArg_setArg_other _ _ _ _ (by decide), hB2,
      getArg_setArg_other _ _ _ _ (by decide), hB1,
      getArg_setArg_other _ _ _ _ (by decide), hS]
  have gB3e : getArg B3 "end_time" = Value.str sE := by
    rw [hB3, getArg_setArg_other _ _ _ _ (by decide), hB2,
      getArg_setArg_other _ _ _ _ (by decide), hB1,
      getArg_setArg_other _ _ _ _ (by decide), hE]
  have hstep4 := inferStart_step_strs o.clock B3 stA sS sE gB3s gB3e
  set s4 : String := if pyStrLt sE sS then sE else sS with hs4
  set B4 := setArg B3 "start_time" (Value.str s4) with hB4
  -- step 5: end_time
  have gB4s : getArg B4 "start_time" = Value.str s4 := by
    rw [hB4, getArg_setArg_same]
  have gB4e : getArg B4 "end_time" = Value.str sE := by
    rw [hB4, getArg_setArg_other _ _ _ _ (by decide), gB3e]
  have hstep5 := inferEnd_step_strs o.clock B4 stA s4 sE gB4s gB4e
  have h5eq : (if pyStrLt sE s4 then s4 else sE) = sE := by
    rw [hs4]
    by_cases hc : pyStrLt sE sS <;> simp [hc, pyStrLt_irrefl]
  rw [h5eq] at hstep5
  set B5 := setArg B4 "end_time" (Value.str sE) with hB5
  -- step 6: zarr_output
  have gB5z : getArg B5 "zarr_output" = Value.str sZ := by
    rw [hB5, getArg_setArg_other _ _ _ _ (by decide), hB4,
      getArg_setArg_other _ _ _ _ (by decide), hB3,
      getArg_setArg_other _ _ _ _ (by decide), hB2,
      getArg_setArg_other _ _ _ _ (by decide), hB1,
      getArg_setArg_other _ _ _ _ (by decide), hZ]
  have hstep6 := inferZarr_step_str o.clock B5 stA sZ gB5z
  have hz6v : (if pyEndsWith sZ ".zarr" then Value.str sZ
      else Value.str (sZ ++ ".zarr")) =
      Value.str (if pyEndsWith sZ ".zarr" then sZ else sZ ++ ".zarr") := by
    by_cases hc : pyEndsWith sZ ".zarr" <;> simp [hc]
  rw [hz6v] at hstep6
  set z6 : String := if pyEndsWith sZ ".zarr" then sZ else sZ ++ ".zarr"
    with hz6d
  set B6 := setArg B5 "zarr_output" (Value.str z6) with hB6
  -- step 7: jupyter_notebook
  have gB6n : getArg B6 "jupyter_notebook" = Value.str sN := by
    rw [hB6, getArg_setArg_other _ _ _ _ (by decide), hB5,
      getArg_setArg_other _ _ _ _ (by decide), hB4,
      getArg_setArg_other _ _ _ _ (by decide), hB3,
      getArg_setArg_other _ _ _ _ (by decide), hB2,
      getArg_setArg_other _ _ _ _ (by decide), hB1,
      getArg_setArg_other _ _ _ _ (by decide), hN]
  have hstep7 := inferNotebook_step_str o.clock B6 stA sN gB6n
  have hn7v : (if pyEndsWith sN ".ipynb" then Value.str sN
      else Value.str (sN ++ ".ipynb")) =
      Value.str (if pyEndsWith sN ".ipynb" then sN else sN ++ ".ipynb") := by
    by_cases hc : pyEndsWith sN ".ipynb" <;> simp [hc]
  rw [hn7v] at hstep7
  set n7 : String := if pyEndsWith sN ".ipynb" then sN else sN ++ ".ipynb"
    with hn7d
  set B7 := setArg B6 "jupyter_notebook" (Value.str n7) with hB7
  -- the first pass computes B7
  have E : inferArgs (cdsHistoricTool o) args st1 = (.ok B7, stA) := by
    rw [show inferArgs (cdsHistoricTool o) args st1 =
      inferArgsGo (cdsHistoricInferenceRules o)
        [("historic_dataset", true), ("historic_variables", true),
         ("area", true), ("start_time", false), ("end_time", false),
         ("zarr_output", false), ("jupyter_notebook", false)] args st1 from rfl]
    rw [inferArgsGo_cons_some _ _ _ _ _ _ _ rfl _ _ hstep1, ← hB1,
        inferArgsGo_cons_some _ _ _ _ _ _ _ rfl _ _ hstep2, ← hB2,
        inferArgsGo_cons_some _ _ _ _ _ _ _ rfl _ _ hstep3, ← hB3,
        inferArgsGo_cons_some _ _ _ _ _ _ _ rfl _ _ hstep4, ← hB4,
        inferArgsGo_cons_some _ _ _ _ _ _ _ rfl _ _ hstep5, ← hB5,
        inferArgsGo_cons_some _ _ _ _ _ _ _ rfl _ _ hstep6, ← hB6,
        inferArgsGo_cons_some _ _ _ _ _ _ _ rfl _ _ hstep7, ← hB7]
    exact rfl
  have hq := E.symm.trans hpass1
  simp only [Prod.mk.injEq, Except.ok.injEq] at hq
  obtain ⟨h1, -⟩ := hq
  subst h1
  -- keys of B7
  have m1 : "historic_dataset" ∈ argKeys B7 := by
    rw [hB7, hB6, hB5, hB4, hB3, hB2, hB1]
    exact mem_argKeys_setArg _ _ _ _ (mem_argKeys_setArg _ _ _ _
      (mem_argKeys_setArg _ _ _ _ (mem_argKeys_setArg _ _ _ _
      (mem_argKeys_setArg _ _ _ _ (mem_argKeys_setArg _ _ _ _
      (mem_argKeys_setArg_self _ _ _))))))
  have m2 : "historic_variables" ∈ argKeys B7 := by
    rw [hB7, hB6, hB5, hB4, hB3, hB2]
    exact mem_argKeys_setArg _ _ _ _ (mem_argKeys_setArg _ _ _ _
      (mem_argKeys_setArg _ _ _ _ (mem_argKeys_setArg _ _ _ _
      (mem_argKeys_setArg _ _ _ _ (mem_argKeys_setArg_self _ _ _)))))
  have m3 : "area" ∈ argKeys B7 := by
    rw [hB7, hB6, hB5, hB4, hB3]
    exact mem_argKeys_setArg _ _ _ _ (mem_argKeys_setArg _ _ _ _
      (mem_argKeys_setArg _ _ _ _ (mem_argKeys_setArg _ _ _ _
      (mem_argKeys_setArg_self _ _ _))))
  have m4 : "start_time" ∈ argKeys B7 := by
    rw [hB7, hB6, hB5, hB4]
    exact mem_argKeys_setArg _ _ _ _ (mem_argKeys_setArg _ _ _ _
      (mem_argKeys_setArg _ _ _ _ (mem_argKeys_setArg_self _ _ _)))
  have m5 : "end_time" ∈ argKeys B7 := by
    rw [hB7, hB6, hB5]
    exact mem_argKeys_setArg _ _ _ _ (mem_argKeys_setArg _ _ _ _
      (mem_argKeys_setArg_self _ _ _))
  have m6 : "zarr_output" ∈ argKeys B7 := by
    rw [hB7, hB6]
    exact mem_argKeys_setArg _ _ _ _ (mem_argKeys_setArg_self _ _ _)
  have m7 : "jupyter_notebook" ∈ argKeys B7 := by
    rw [hB7]
    exact mem_argKeys_setArg_self _ _ _
  -- values of B7
  have g1 : getArg B7 "historic_dataset" = Value.histDataset d := by
    rw [hB7, getArg_setArg_other _ _ _ _ (by decide), hB6,
      getArg_setArg_other _ _ _ _ (by decide), hB5,
      getArg_setArg_other _ _ _ _ (by decide), hB4,
      getArg_setArg_other _ _ _ _ (by decide), hB3,
      getArg_setArg_other _ _ _ _ (by decide), hB2,
      getArg_setArg_other _ _ _ _ (by decide), hB1, getArg_setArg_same]
  have g2 : getArg B7 "historic_variables" = Value.list (ws.map Value.histVar) := by
    rw [hB7, getArg_setArg_other _ _ _ _ (by decide), hB6,
      getArg_setArg_other _ _ _ _ (by decide), hB5,
      getArg_setArg_other _ _ _ _ (by decide), hB4,
      getArg_setArg_other _ _ _ _ (by decide), hB3,
      getArg_setArg_other _ _ _ _ (by decide), hB2, getArg_setArg_same]
  have g3 : getArg B7 "area" = Value.list [.num (floorDecimalsNum pa 1),
      .num (floorDecimalsNum pb 1), .num (ceilDecimalsNum pc 1),
      .num (ceilDecimalsNum pd 1)] := by
    rw [hB7, getArg_setArg_other _ _ _ _ (by decide), hB6,
      getArg_setArg_other _ _ _ _ (by decide), hB5,
      getArg_setArg_other _ _ _ _ (by decide), hB4,
      getArg_setArg_other _ _ _ _ (by decide), hB3, getArg_setArg_same]
  have g4 : getArg B7 "start_time" = Value.str s4 := by
    rw [hB7, getArg_setArg_other _ _ _ _ (by decide), hB6,
      getArg_setArg_other _ _ _ _ (by decide), hB5,
      getArg_setArg_other _ _ _ _ (by decide), hB4, getArg_setArg_same]
  have g5 : getArg B7 "end_time" = Value.str sE := by
    rw [hB7, getArg_setArg_other _ _ _ _ (by decide), hB6,
      getArg_setArg_other _ _ _ _ (by decide), hB5, getArg_setArg_same]
  have g6 : getArg B7 "zarr_output" = Value.str z6 := by
    rw [hB7, getArg_setArg_other _ _ _ _ (by decide), hB6, getArg_setArg_same]
  have g7 : getArg B7 "jupyter_notebook" = Value.str n7 := by
    rw [hB7, getArg_setArg_same]
  -- writing each value back is the identity
  have e1 : setArg B7 "historic_dataset" (Value.histDataset d) = B7 := by
    have h := setArg_getArg_self B7 "historic_dataset" m1
    rw [g1] at h
    exact h
  have e2 : setArg B7 "historic_variables"
      (Value.list (ws.map Value.histVar)) = B7 := by
    have h := setArg_getArg_self B7 "historic_variables" m2
    rw [g2] at h
    exact h
  have e3 : setArg B7 "area" (Value.list [.num (floorDecimalsNum pa 1),
      .num (floorDecimalsNum pb 1), .num (ceilDecimalsNum pc 1),
      .num (ceilDecimalsNum pd 1)]) = B7 := by
    have h := setArg_getArg_self B7 "area" m3
    rw [g3] at h
    exact h
  have e4 : setArg B7 "start_time" (Value.str s4) = B7 := by
    have h := setArg_getArg_self B7 "start_time" m4
    rw [g4] at h
    exact h
  have e5 : setArg B7 "end_time" (Value.str sE) = B7 := by
    have h := setArg_getArg_self B7 "end_time" m5
    rw [g5] at h
    exact h
  have e6 : setArg B7 "zarr_output" (Value.str z6) = B7 := by
    have h := setArg_getArg_self B7 "zarr_output" m6
    rw [g6] at h
    exact h
  have e7 : setArg B7 "jupyter_notebook" (Value.str n7) = B7 := by
    have h := setArg_getArg_self B7 "jupyter_notebook" m7
    rw [g7] at h
    exact h
  -- second pass: every rule reproduces the stored value
  have p1 : cdsHistInferDataset B7 st2 = (.ok (Value.histDataset d), st2) :=
    inferDataset_step B7 st2 d (by rw [g1]; exact histDatasetFromStr_enum d)
  have p2 : cdsHistInferVariables B7 st2 =
      (.ok (Value.list (ws.map Value.histVar)), st2) :=
    inferVariables_step B7 st2 (ws.map Value.histVar) ws
      (by rw [g2]; exact rfl) (mapHistVarsRaise_enums ws)
  have p3 : cdsHistInferArea o.geo B7 st2 =
      (.ok (Value.list [.num (floorDecimalsNum pa 1),
        .num (floorDecimalsNum pb 1), .num (ceilDecimalsNum pc 1),
        .num (ceilDecimalsNum pd 1)]), st2) := by
    have h := inferArea_step_numlist o.geo B7 st2 (floorDecimalsNum pa 1)
      (floorDecimalsNum pb 1) (ceilDecimalsNum pc 1) (ceilDecimalsNum pd 1) g3
    rw [floorDecimalsNum_idem, floorDecimalsNum_idem, ceilDecimalsNum_idem,
      ceilDecimalsNum_idem] at h
    exact h
  have p4 : cdsHistInferStart o.clock B7 st2 = (.ok (Value.str s4), st2) := by
    have h := inferStart_step_strs o.clock B7 st2 s4 sE g4 g5
    have h4 : (if pyStrLt sE s4 then sE else s4) = s4 := by
      rw [hs4]
      by_cases hc : pyStrLt sE sS <;> simp [hc, pyStrLt_irrefl]
    rw [h4] at h
    exact h
  have p5 : cdsHistInferEnd o.clock B7 st2 = (.ok (Value.str sE), st2) := by
    have h := inferEnd_step_strs o.clock B7 st2 s4 sE g4 g5
    rw [h5eq] at h
    exact h
  have p6 : cdsHistInferZarr o.clock B7 st2 = (.ok (Value.str z6), st2) := by
    have h := inferZarr_step_str o.clock B7 st2 z6 g6
    have hz : pyEndsWith z6 ".zarr" = true := by
      rw [hz6d]
      by_cases hc : pyEndsWith sZ ".zarr" <;> simp [hc, pyEndsWith_append]
    rw [if_pos hz] at h
    exact h
  have p7 : cdsHistInferNotebook o.clock B7 st2 = (.ok (Value.str n7), st2) := by
    have h := inferNotebook_step_str o.clock B7 st2 n7 g7
    have hn : pyEndsWith n7 ".ipynb" = true := by
      rw [hn7d]
      by_cases hc : pyEndsWith sN ".ipynb" <;> simp [hc, pyEndsWith_append]
    rw [if_pos hn] at h
    exact h
  rw [show inferArgs (cdsHistoricTool o) B7 st2 =
    inferArgsGo (cdsHistoricInferenceRules o)
      [("historic_dataset", true), ("historic_variables", true),
       ("area", true), ("start_time", false), ("end_time", false),
       ("zarr_output", false), ("jupyter_notebook", false)] B7 st2 from rfl]
  rw [inferArgsGo_cons_some _ _ _ _ _ _ _ rfl _ _ p1, e1,
      inferArgsGo_cons_some _ _ _ _ _ _ _ rfl _ _ p2, e2,
      inferArgsGo_cons_some _ _ _ _ _ _ _ rfl _ _ p3, e3,
      inferArgsGo_cons_some _ _ _ _ _ _ _ rfl _ _ p4, e4,
      inferArgsGo_cons_some _ _ _ _ _ _ _ rfl _ _ p5, e5,
      inferArgsGo_cons_some _ _ _ _ _ _ _ rfl _ _ p6, e6,
      inferArgsGo_cons_some _ _ _ _ _ _ _ rfl _ _ p7, e7]
  exact rfl

/-- The concrete result of the first `infer_args` pass over
`histArgsOk`. -/
def histArgs1 : Args :=
  [("historic_dataset", .histDataset .hourly),
   ("historic_variables", .list [.histVar .temperature]),
   ("area", .list [.num ⟨120, 1⟩, .num ⟨520, 1⟩, .num ⟨140, 1⟩, .num ⟨530, 1⟩]),
   ("start_time", .str "2025-05-01"),
   ("end_time", .str "2025-06-01"),
   ("zarr_output", .str "o.zarr"),
   ("jupyter_notebook", .str "n.ipynb")]

/-- Witness for C9: the fully specified valid argument set; the first
pass rounds the bounding box and canonicalises the enums, and the second
pass leaves the result unchanged. -/
theorem infer_args_idempotent_witness :
    (∃ s, getArg histArgsOk "historic_dataset" = Value.str s) ∧
    (∃ ss : List String, getArg histArgsOk "historic_variables" =
      Value.list (ss.map Value.str)) ∧
    ((∃ s, getArg histArgsOk "area" = Value.str s) ∨
      (∃ ns : List PyNum, getArg histArgsOk "area" =
        Value.list (ns.map Value.num))) ∧
    (∃ s, getArg histArgsOk "start_time" = Value.str s) ∧
    (∃ s, getArg histArgsOk "end_time" = Value.str s) ∧
    (∃ s, getArg histArgsOk "zarr_output" = Value.str s) ∧
    (∃ s, getArg histArgsOk "jupyter_notebook" = Value.str s) ∧
    checkValidationRules (cdsHistoricTool testOracles) histArgsOk = .ok [] ∧
    GeoContract testOracles.geo ∧
    inferArgs (cdsHistoricTool testOracles) histArgsOk
      (cdsHistoricTool testOracles).initState =
      (.ok histArgs1, (cdsHistoricTool testOracles).initState) ∧
    (inferArgs (cdsHistoricTool testOracles) histArgs1
      (cdsHistoricTool testOracles).initState).1 = .ok histArgs1 := by
  refine ⟨⟨"reanalysis-era5-land", rfl⟩, ⟨["temperature"], rfl⟩,
    Or.inr ⟨[⟨12, 0⟩, ⟨52, 0⟩, ⟨14, 0⟩, ⟨53, 0⟩], rfl⟩,
    ⟨"2025-05-01", rfl⟩, ⟨"2025-06-01", rfl⟩, ⟨"o.zarr", rfl⟩,
    ⟨"n.ipynb", rfl⟩, rfl,
    fun s => ⟨⟨12, 0⟩, ⟨52, 0⟩, ⟨14, 0⟩, ⟨53, 0⟩, rfl⟩, rfl, ?_⟩
  exact infer_args_idempotent testOracles histArgsOk
    (cdsHistoricTool testOracles).initState
    (cdsHistoricTool testOracles).initState
    (cdsHistoricTool testOracles).initState histArgs1
    ⟨"reanalysis-era5-land", rfl⟩ ⟨["temperature"], rfl⟩
    (Or.inr ⟨[⟨12, 0⟩, ⟨52, 0⟩, ⟨14, 0⟩, ⟨53, 0⟩], rfl⟩)
    ⟨"2025-05-01", rfl⟩ ⟨"2025-06-01", rfl⟩ ⟨"o.zarr", rfl⟩ ⟨"n.ipynb", rfl⟩
    rfl (fun s => ⟨⟨12, 0⟩, ⟨52, 0⟩, ⟨14, 0⟩, ⟨53, 0⟩, rfl⟩) rfl

end ICisk
